import Mathlib

/-!
# Verification of the world-simulation core (`src/WorldSimulation.py`)

A shallow embedding of the simulation core: countries, the shared
ecosystem, the tabular Q-learning agents, the orchestrator's global
events and war resolution, and the per-year country turn phases.

Modelling conventions:
* Python numbers are embedded as exact values: `Int` for integer fields,
  `ℚ` for values that flow through float arithmetic.  `pyInt` models
  Python's `int(...)` truncation toward zero, `Int.fdiv` models Python's
  flooring `//` on integers.
* Python dicts keyed by country name become association lists
  (`tension_score`) or total functions with a default (`regional_pollution`,
  whose keys are always exactly the country names).
* Randomness is made explicit: every `random.random()`/`randint`/`choice`
  draw becomes a parameter of the operation.  The epsilon-greedy action
  choice is passed in as a parameter, since every action in the fixed
  domain is a possible outcome of `choose_action`.
* Each method runs inside `try/except` in the source; the exceptional
  paths that can actually fire (`KeyError` on the done-dict for a year
  outside 1..20, empty-country-list division/`max`) are modelled as the
  corresponding early returns, which is what the `except` handler does
  before any mutation has happened in those cases.
* The single global lock serialises all mutations in the source; the
  embedding therefore gives each operation atomic functional semantics.
-/

namespace WorldSim

/-- Python `int(x)`: truncation toward zero. -/
def pyInt (q : ℚ) : ℤ := if 0 ≤ q then ⌊q⌋ else ⌈q⌉

inductive Gov where
  | right
  | left
deriving DecidableEq, Repr, Inhabited

inductive Res where
  | oil
  | coal
  | gas
  | forest
deriving DecidableEq, Repr, Inhabited

inductive InvestAction where
  | economy
  | environment
  | infrastructure
deriving DecidableEq, Repr, Inhabited

inductive AgreeAction where
  | join
  | refuse
deriving DecidableEq, Repr, Inhabited

inductive WarAction where
  | attack
  | peace
deriving DecidableEq, Repr, Inhabited

/-- Discretized state tuple produced by `RLAgent.get_state` (a 6- or 7-tuple). -/
abbrev QKey := List ℚ

/-- One action-value table: state tuple → action → learned value.
`collections.defaultdict` auto-initializes unseen states to zero for every
action, so the table is total with default `0`. -/
abbrev QTable (A : Type) := QKey → A → ℚ

/-- `RLAgent.__init__` (lines 56-62). -/
structure RLAgent where
  alpha : ℚ
  gamma : ℚ
  epsilon : ℚ
  invest_q : QTable InvestAction
  agree_q : QTable AgreeAction
  war_q : QTable WarAction

/-- Fresh agent as built by `RLAgent.__init__`: α = 0.1, γ = 0.9, ε = 0.3,
all three tables zero-initialized. -/
def defaultAgent : RLAgent where
  alpha := 1/10
  gamma := 9/10
  epsilon := 3/10
  invest_q := fun _ _ => 0
  agree_q := fun _ _ => 0
  war_q := fun _ _ => 0

instance : Inhabited RLAgent := ⟨defaultAgent⟩

/-- `Country.__init__` state (lines 300-322).  `diplomatic_relations` is
written once during setup and never read afterwards, so it is omitted.
`environment_agreement` is the 0/1 flag, embedded as `Bool`. -/
structure Country where
  name : String
  population : ℤ
  resources : Res → ℤ
  natural_disaster_risk : ℚ
  government : Gov
  ideology_score : ℤ
  money : ℤ
  military_power : ℤ
  happiness : ℚ
  tech_level : ℤ
  education_level : ℤ
  pollution : ℚ
  production : ℚ
  investments : InvestAction → ℤ
  infrastructure_level : ℚ
  rebellion_risk : ℚ
  year : ℕ
  has_rebelled_this_year : Bool
  tension_score : List (String × ℤ)
  environment_agreement : Bool
  agent : RLAgent

instance : Inhabited Country :=
  ⟨{ name := "", population := 0, resources := fun _ => 0,
     natural_disaster_risk := 0, government := Gov.right, ideology_score := 0,
     money := 0, military_power := 0, happiness := 0, tech_level := 1,
     education_level := 1, pollution := 0, production := 0,
     investments := fun _ => 0, infrastructure_level := 0, rebellion_risk := 0,
     year := 0, has_rebelled_this_year := false, tension_score := [],
     environment_agreement := false, agent := defaultAgent }⟩

/-- Shared `Ecosystem` state (lines 87-94).  `regional_pollution` is a dict
whose keys are always exactly the country names; it is embedded as a total
function on names. -/
structure Ecosystem where
  global_pollution : ℚ
  regional_pollution : String → ℚ
  ecosystem_health : ℚ
  alarm_level : ℕ

/-- The four transient global-event outcome flags (lines 169-172). -/
structure GEFlags where
  pandemic : Bool
  meteor : Bool
  economic_crash : Bool
  blackout : Bool

/-- `World` plus its `Ecosystem` (lines 156-161, 214-215).
`global_events_done` is the per-year idempotency dict, initialized `False`
for years 1..20. -/
structure WorldState where
  countries : List Country
  eco : Ecosystem
  global_events : GEFlags
  global_events_done : ℕ → Bool

/-- Python dict `.get(key, 50)` on the tension dict. -/
def lookupTension (l : List (String × ℤ)) (k : String) : ℤ :=
  match l.find? (fun p => p.1 = k) with
  | some p => p.2
  | none => 50

/-- Python dict assignment `d[k] = v`: overwrite in place, or append a new
key at the end. -/
def dictSet (l : List (String × ℤ)) (k : String) (v : ℤ) : List (String × ℤ) :=
  if l.any (fun p => p.1 = k) then
    l.map (fun p => if p.1 = k then (k, v) else p)
  else l ++ [(k, v)]

def getTension (c : Country) (otherName : String) : ℤ :=
  lookupTension c.tension_score otherName

/-- `Country.get_diplomatic_status` (lines 324-330). -/
def get_diplomatic_status (c : Country) (other : Country) : String :=
  let tension := getTension c other.name
  if tension < 30 then "friendly"
  else if tension > 70 then "hostile"
  else "neutral"

/-- `Country.update_tension` (lines 332-337): clamp the new value into
[0, 100] before storing. -/
def update_tension (c : Country) (partnerName : String) (change : ℤ) : Country :=
  { c with tension_score :=
      (dictSet c.tension_score partnerName
        (min 100 (max 0 (getTension c partnerName + change)))) }

/-! ## List helpers (index access and in-place update) -/

/-- Country at index `i` (Python list indexing / iteration position). -/
def countryAt (w : WorldState) (i : ℕ) : Country :=
  w.countries.getD i default

def setCountry (w : WorldState) (i : ℕ) (c : Country) : WorldState :=
  { w with countries := w.countries.set i c }

/-- In-place mutation of the country at index `i`. -/
def modifyCountry (w : WorldState) (i : ℕ) (f : Country → Country) : WorldState :=
  setCountry w i (f (countryAt w i))

/-! ## RLAgent operations -/

/-- `RLAgent.get_state` (lines 64-75).  `//` on Python numbers floors;
`int(...)` truncates.  The ecosystem-health bucket reads the shared
ecosystem. -/
def get_state (e : Ecosystem) (c : Country) (tension : Option ℤ) : QKey :=
  let hap : ℚ := min 5 ⌊c.happiness / 20⌋
  let pol : ℚ := min 5 ⌊c.pollution / 20⌋
  let infra : ℚ := min 5 ⌊c.infrastructure_level / 20⌋
  let prod : ℚ := min 5 (Int.fdiv (pyInt c.production) 50)
  let gov : ℚ := if c.government = Gov.right then 0 else 1
  let eco : ℚ := min 5 ⌊e.ecosystem_health / 20⌋
  let base : QKey := [hap, pol, infra, prod, gov, eco]
  match tension with
  | none => base
  | some t => base ++ [(min 5 (max 0 (Int.fdiv (t - 50) 10)) : ℚ)]

/-- `max(q_table[new_state].values())`: maximum over the fixed action
domain of a table row (the defaultdict row always holds exactly the fixed
action set). -/
def valsMax {A : Type} (acts : List A) (f : A → ℚ) : ℚ :=
  match acts with
  | [] => 0
  | a :: rest => (rest.map f).foldl max (f a)

/-- `RLAgent.update` (lines 83-85):
`Q[s][a] += α · (reward + γ · max_a' Q[s'][a'] − Q[s][a])`. -/
def qUpdate {A : Type} [DecidableEq A] (acts : List A) (alpha gamma : ℚ)
    (q : QTable A) (s : QKey) (a : A) (r : ℚ) (s' : QKey) : QTable A :=
  let maxNext := valsMax acts (q s')
  fun t b =>
    if t = s ∧ b = a then q s a + alpha * (r + gamma * maxNext - q s a)
    else q t b

/-- Fixed action domain of the investment table, in dict insertion order. -/
def investActions : List InvestAction :=
  [InvestAction.economy, InvestAction.environment, InvestAction.infrastructure]

/-- Fixed action domain of the agreement table. -/
def agreeActions : List AgreeAction := [AgreeAction.join, AgreeAction.refuse]

/-- Fixed action domain of the war table. -/
def warActions : List WarAction := [WarAction.attack, WarAction.peace]

def RLAgent.updateInvest (ag : RLAgent) (s : QKey) (a : InvestAction) (r : ℚ)
    (s' : QKey) : RLAgent :=
  { ag with invest_q := qUpdate investActions ag.alpha ag.gamma ag.invest_q s a r s' }

def RLAgent.updateAgree (ag : RLAgent) (s : QKey) (a : AgreeAction) (r : ℚ)
    (s' : QKey) : RLAgent :=
  { ag with agree_q := qUpdate agreeActions ag.alpha ag.gamma ag.agree_q s a r s' }

def RLAgent.updateWar (ag : RLAgent) (s : QKey) (a : WarAction) (r : ℚ)
    (s' : QKey) : RLAgent :=
  { ag with war_q := qUpdate warActions ag.alpha ag.gamma ag.war_q s a r s' }

/-! ## Ecosystem operations -/

/-- `sum(c.pollution * 0.1 for c in neighbors)` where the neighbors of the
country at index `i` are all other list positions (`c != country` is
object identity in the source). -/
def neighborPollutionSum (cs : List Country) (i : ℕ) : ℚ :=
  (((List.range cs.length).filter (fun j => j ≠ i)).map
    (fun j => (cs.getD j default).pollution * (1/10))).sum

/-- Regional pollution recomputed for the country at index `i`
(line 104): own pollution plus 10% of each neighbor's pollution. -/
def regionalValue (cs : List Country) (i : ℕ) : ℚ :=
  (cs.getD i default).pollution + neighborPollutionSum cs i

/-- The high-regional-pollution penalty (lines 106-108). -/
def pollutionPenalty (c : Country) : Country :=
  { c with
    happiness := max 0 (c.happiness - 5),
    resources := fun r =>
      if r = Res.forest then max 0 (c.resources Res.forest - 10)
      else c.resources r,
    rebellion_risk := c.rebellion_risk + 1/20 }

/-- `Ecosystem.update_pollution` (lines 96-114).  An empty country list
raises `ZeroDivisionError` before any mutation, which the handler turns
into a plain return. -/
def update_pollution (w : WorldState) : WorldState :=
  if w.countries.length = 0 then w
  else
    let cs := w.countries
    let g : ℚ := (cs.map (fun c => c.pollution)).sum / cs.length
    let cs' := cs.enum.map (fun p =>
      if regionalValue cs p.1 > 50 then pollutionPenalty p.2 else p.2)
    let reg' := cs.enum.foldl
      (fun f p => fun n => if n = p.2.name then regionalValue cs p.1 else f n)
      w.eco.regional_pollution
    { w with
      countries := cs',
      eco := { w.eco with
        global_pollution := g,
        regional_pollution := reg',
        ecosystem_health :=
          max 0 (min 100 (w.eco.ecosystem_health - (pyInt (g / 5) : ℚ))) } }

/-- The threshold scan of `Ecosystem.sound_alarm` (lines 119-124):
`for i, threshold in enumerate(thresholds, 1)` with an early `return` on
the first escalation. -/
def soundAlarmLoop (g : ℚ) (a : ℕ) : List (ℕ × ℚ) → ℕ
  | [] => a
  | (i, t) :: rest => if g > t ∧ a < i then i else soundAlarmLoop g a rest

/-- `Ecosystem.sound_alarm` (lines 116-126). -/
def sound_alarm (e : Ecosystem) : Ecosystem :=
  { e with alarm_level :=
      soundAlarmLoop e.global_pollution e.alarm_level [(1, 30), (2, 50), (3, 70)] }

def soundAlarmW (w : WorldState) : WorldState :=
  { w with eco := sound_alarm w.eco }

/-- Severity multiplier used by every disaster (lines 133, 140, 148):
`2 if infrastructure_level < 50 else (0.5 if infrastructure_level > 70 else 1)`. -/
def disasterMultiplier (infra : ℚ) : ℚ :=
  if infra < 50 then 2 else if infra > 70 then 1/2 else 1

/-- First index attaining the maximum key — Python's `max(..., key=...)`
keeps the earliest maximal element. -/
def firstArgmax (key : ℕ → ℚ) : List ℕ → Option ℕ
  | [] => none
  | j :: rest => some (rest.foldl (fun b k => if key k > key b then k else b) j)

def regionalKey (w : WorldState) (j : ℕ) : ℚ :=
  w.eco.regional_pollution (countryAt w j).name

/-- `max(self.countries, key=regional_pollution)` as an index (line 132). -/
def worstRegionalIdx (w : WorldState) : ℕ :=
  (firstArgmax (regionalKey w) (List.range w.countries.length)).getD 0

/-- First two indices of the stable descending sort by regional pollution
(line 146).  A stable sort in descending key order lists first the
earliest index of maximal key, then the earliest maximal index among the
rest, so two greedy argmax passes produce exactly `sorted(...)[:2]`. -/
def floodTargets (w : WorldState) : List ℕ :=
  let n := w.countries.length
  let i1 := (firstArgmax (regionalKey w) (List.range n)).getD 0
  match firstArgmax (regionalKey w) ((List.range n).filter (fun j => j ≠ i1)) with
  | some i2 => [i1, i2]
  | none => [i1]

/-- Disease effects on the worst-polluted country (lines 132-137). -/
def applyDisease (w : WorldState) : WorldState :=
  modifyCountry w (worstRegionalIdx w) (fun c =>
    let m := disasterMultiplier c.infrastructure_level
    { c with
      population := pyInt ((c.population : ℚ) * (1 - 1/20 * m)),
      happiness := max 0 (c.happiness - 10 * m),
      rebellion_risk := c.rebellion_risk + 1/20 * m })

/-- Earthquake effects on a randomly chosen country (lines 139-144). -/
def applyQuake (w : WorldState) (i : ℕ) : WorldState :=
  modifyCountry w i (fun c =>
    let m := disasterMultiplier c.infrastructure_level
    { c with
      population := max 0 (c.population - pyInt (5000 * m)),
      production := max 0 (c.production * (1 - 1/5 * m)),
      happiness := max 0 (c.happiness - 5 * m) })

/-- Flood effects on one of the two worst-polluted countries (lines 147-152). -/
def applyFloodOne (w : WorldState) (i : ℕ) : WorldState :=
  modifyCountry w i (fun c =>
    let m := disasterMultiplier c.infrastructure_level
    { c with
      resources := fun r =>
        if r = Res.forest then max 0 (c.resources Res.forest - pyInt (20 * m))
        else c.resources r,
      money := pyInt ((c.money : ℚ) * (1 - 1/10 * m)),
      happiness := max 0 (c.happiness - 5 * m) })

/-- The random draws feeding `Ecosystem.trigger_disasters`. -/
structure DisasterParams where
  diseaseDraw : Bool
  quakeDraw : Bool
  floodDraw : Bool
  quakeIdx : ℕ

/-- `Ecosystem.trigger_disasters` (lines 128-154).  With no countries,
whichever branch fires first raises (`max`/`choice` on an empty sequence)
with no prior mutation, so the call is a no-op. -/
def trigger_disasters (w : WorldState) (p : DisasterParams) : WorldState :=
  if w.countries.length = 0 then w
  else
    let w1 := if w.eco.alarm_level ≥ 1 ∨ p.diseaseDraw then applyDisease w else w
    let w2 := if w1.eco.alarm_level ≥ 2 ∨ p.quakeDraw then applyQuake w1 p.quakeIdx else w1
    if w2.eco.alarm_level ≥ 3 ∨ p.floodDraw then
      (floodTargets w2).foldl applyFloodOne w2
    else w2

/-! ## Orchestrator: global events (lines 163-209) -/

/-- Bump every country's regional-pollution entry by `d`
(`self.ecosystem.regional_pollution[country.name] += d` inside the
per-country event loops). -/
def bumpRegionalAll (w : WorldState) (d : ℚ) : WorldState :=
  { w with eco := { w.eco with regional_pollution :=
      (w.countries.foldl
        (fun f c => fun n => if n = c.name then f n + d else f n)
        w.eco.regional_pollution) } }

/-- Pandemic effects (lines 174-181). -/
def applyPandemic (w : WorldState) : WorldState :=
  bumpRegionalAll
    { w with countries := w.countries.map (fun c =>
        { c with
          production := c.production * (1/2),
          happiness := max 0 (c.happiness - 10),
          pollution := c.pollution + 2,
          population := pyInt ((c.population : ℚ) * (98/100)) }) }
    2

/-- Meteor effects (lines 182-190); `loss i r` is the `randint(5, 20)`
draw for resource `r` of the country at index `i`. -/
def applyMeteor (w : WorldState) (loss : ℕ → Res → ℤ) : WorldState :=
  bumpRegionalAll
    { w with countries := w.countries.enum.map (fun p =>
        { p.2 with
          resources := fun r => max 0 (p.2.resources r - loss p.1 r),
          happiness := max 0 (p.2.happiness - 5),
          pollution := p.2.pollution + 3,
          tech_level := max 1 (p.2.tech_level - 1) }) }
    3

/-- Economic-crash effects (lines 191-197). -/
def applyCrash (w : WorldState) : WorldState :=
  bumpRegionalAll
    { w with countries := w.countries.map (fun c =>
        { c with
          money := pyInt ((c.money : ℚ) * (7/10)),
          happiness := max 0 (c.happiness - 10),
          pollution := c.pollution + 3 }) }
    3

/-- Blackout effects (lines 198-204). -/
def applyBlackout (w : WorldState) : WorldState :=
  bumpRegionalAll
    { w with countries := w.countries.map (fun c =>
        { c with
          tech_level := max 1 (c.tech_level - 1),
          production := c.production * (6/10),
          pollution := c.pollution + 2 }) }
    2

/-- The random draws feeding `World.simulate_global_events`. -/
structure GlobalEventParams where
  pandemicDraw : Bool
  meteorDraw : Bool
  crashDraw : Bool
  blackoutDraw : Bool
  meteorLoss : ℕ → Res → ℤ
  disasters : DisasterParams

/-- `World.simulate_global_events` (lines 163-209).  The per-year done
flag is checked-and-set under the lock before any effect; a year outside
the done-dict's domain 1..20 raises `KeyError` before any mutation and
the handler returns. -/
def simulate_global_events (w : WorldState) (year : ℕ) (p : GlobalEventParams) :
    WorldState :=
  if year < 1 ∨ 20 < year then w
  else if w.global_events_done year then w
  else
    let w0 : WorldState :=
      { w with
        global_events_done := fun y => if y = year then true else w.global_events_done y,
        global_events :=
          ⟨p.pandemicDraw, p.meteorDraw, p.crashDraw, p.blackoutDraw⟩ }
    let w1 := if p.pandemicDraw then applyPandemic w0 else w0
    let w2 := if p.meteorDraw then applyMeteor w1 p.meteorLoss else w1
    let w3 := if p.crashDraw then applyCrash w2 else w2
    let w4 := if p.blackoutDraw then applyBlackout w3 else w3
    trigger_disasters (soundAlarmW (update_pollution w4)) p.disasters

/-! ## Orchestrator: war resolution (lines 217-297) -/

/-- The candidate set built by `simulate_war` (lines 222-230): ordered
index pairs of distinct countries whose tension (with a +5 bump when
global pollution exceeds 50) exceeds 70. -/
def potentialWars (w : WorldState) : List (ℕ × ℕ) :=
  ((List.range w.countries.length).map (fun i =>
    (List.range w.countries.length).filterMap (fun j =>
      if i ≠ j then
        let tension := getTension (countryAt w i) ((countryAt w j).name) +
          (if w.eco.global_pollution > 50 then 5 else 0)
        if tension > 70 then some (i, j) else none
      else none))).flatten

/-- `attack_score` (line 249): `population × 0.15 × tech_level ×
(1 + oil/100 + gas/200)`. -/
def attackScore (c : Country) : ℚ :=
  (c.population : ℚ) * (3/20) * (c.tech_level : ℚ) *
    (1 + (c.resources Res.oil : ℚ) / 100 + (c.resources Res.gas : ℚ) / 200)

/-- `defense_score` (line 250): same formula with coefficient 0.20. -/
def defenseScore (c : Country) : ℚ :=
  (c.population : ℚ) * (1/5) * (c.tech_level : ℚ) *
    (1 + (c.resources Res.oil : ℚ) / 100 + (c.resources Res.gas : ℚ) / 200)

/-- 30% resource loss of the loser (line 260). -/
def warResourceLoss (lC : Country) : Res → ℤ :=
  fun r => pyInt ((lC.resources r : ℚ) * (3/10))

/-- Material war effects on the winner (lines 259-273): gains the loser's
resource losses, loses 2% population, happiness +5 capped at 100,
pollution +10 then +2, rebellion risk +0.05. -/
def warWinnerAfter (wC lC0 : Country) : Country :=
  let loss := warResourceLoss lC0
  let wC1 := { wC with resources := fun r => wC.resources r + loss r }
  let wC2 := { wC1 with
    population := wC1.population - pyInt ((wC1.population : ℚ) * (1/50)) }
  { wC2 with
    happiness := min 100 (wC2.happiness + 5),
    pollution := wC2.pollution + 10 + 2,
    rebellion_risk := wC2.rebellion_risk + 1/20 }

/-- Material war effects on the loser (lines 259-273): loses 30% of each
resource (floored at 0), loses 5% population, happiness −10 floored at 0,
pollution +10 then +2, rebellion risk +0.05. -/
def warLoserAfter (lC0 : Country) : Country :=
  let loss := warResourceLoss lC0
  let lC1 := { lC0 with resources := fun r => max 0 (lC0.resources r - loss r) }
  let lC2 := { lC1 with
    population := lC1.population - pyInt ((lC1.population : ℚ) * (1/20)) }
  { lC2 with
    happiness := max 0 (lC2.happiness - 10),
    pollution := lC2.pollution + 10 + 2,
    rebellion_risk := lC2.rebellion_risk + 1/20 }

/-- Post-war tension updates (lines 278-283): winner +10 toward loser,
loser +30 toward winner, and with probability ½ a peace settlement at −20
on both sides. -/
def warTensions (wC lC : Country) (pdraw : Bool) : Country × Country :=
  let wC4 := update_tension wC lC.name 10
  let lC4 := update_tension lC wC4.name 30
  let wC5 := if pdraw then update_tension wC4 lC4.name (-20) else wC4
  let lC5 := if pdraw then update_tension lC4 wC5.name (-20) else lC4
  (wC5, lC5)

/-- Shared ecosystem effects of a decided war (lines 274-277). -/
def warEcoAfter (e : Ecosystem) (wname lname : String) : Ecosystem :=
  { e with
    global_pollution := e.global_pollution + 2,
    regional_pollution := fun n =>
      (if n = wname then e.regional_pollution n + 12 else e.regional_pollution n) +
      (if n = lname then 12 else 0),
    ecosystem_health := max 0 (e.ecosystem_health - 15) }

/-- Loop body of `simulate_war` for one (attacker, defender) pair
(lines 233-295).  `act` is the epsilon-greedy outcome of the war table,
`pdraw` the `random() < 0.5` peace-settlement draw. -/
def warPairBody (w : WorldState) (pr : ℕ × ℕ) (act : WarAction) (pdraw : Bool) :
    WorldState :=
  let ai := pr.1
  let di := pr.2
  let attacker := countryAt w ai
  let defender := countryAt w di
  let tension := getTension attacker defender.name
  let s := get_state w.eco attacker (some tension)
  match act with
  | WarAction.peace =>
    let ns := get_state w.eco attacker (some tension)
    modifyCountry w ai (fun c => { c with agent := c.agent.updateWar s WarAction.peace 1 ns })
  | WarAction.attack =>
    let oldHap := attacker.happiness
    let oldMon := attacker.money
    let oldPol := attacker.pollution
    let oldEco := w.eco.ecosystem_health
    let oldReb := attacker.rebellion_risk
    let as' := attackScore attacker
    let ds' := defenseScore defender
    if as' = ds' then
      let ns := get_state w.eco attacker (some (getTension attacker defender.name))
      modifyCountry w ai (fun c => { c with agent := c.agent.updateWar s WarAction.attack (-1) ns })
    else
      let wi := if as' > ds' then ai else di
      let li := if as' > ds' then di else ai
      let pair := warTensions (warWinnerAfter (countryAt w wi) (countryAt w li))
        (warLoserAfter (countryAt w li)) pdraw
      let w1 := setCountry (setCountry w wi pair.1) li pair.2
      let w2 : WorldState := { w1 with eco := warEcoAfter w1.eco pair.1.name pair.2.name }
      -- reward for the attacker (lines 284-295)
      let aNow := countryAt w2 ai
      let ns := get_state w2.eco aNow (some (getTension aNow ((countryAt w2 di).name)))
      let deltaHap := aNow.happiness - oldHap
      let deltaMon := ((aNow.money - oldMon : ℤ) : ℚ) / 10000000
      let deltaPol := aNow.pollution - oldPol
      let deltaEco := w2.eco.ecosystem_health - oldEco
      let deltaReb := aNow.rebellion_risk - oldReb
      let reward := deltaHap + deltaMon - deltaPol - |deltaEco| * 2 - deltaReb * 10 +
        (if wi = ai then 10 else -10)
      modifyCountry w2 ai (fun c => { c with agent := c.agent.updateWar s WarAction.attack reward ns })

/-- The random draws feeding `simulate_war`: the shuffled candidate list
and, per pair, the epsilon-greedy war action and the peace-settlement
draw. -/
structure WarParams where
  order : List (ℕ × ℕ)
  action : ℕ × ℕ → WarAction
  peaceDraw : ℕ × ℕ → Bool

/-- `World.simulate_war` (lines 217-297).  The guard (lines 219-221)
returns as soon as `global_events_done[year]` is set; a year outside
1..20 raises `KeyError` inside the guard, which the handler turns into a
return.  Otherwise the first two pairs of the shuffled candidate list are
resolved. -/
def simulate_war (w : WorldState) (year : ℕ) (p : WarParams) : WorldState :=
  if year < 1 ∨ 20 < year then w
  else if w.global_events_done year then w
  else
    (p.order.take 2).foldl
      (fun acc pr => warPairBody acc pr (p.action pr) (p.peaceDraw pr)) w

/-! ## Country operations -/

/-- `Country.collect_taxes` (lines 426-441). -/
def collect_taxes (w : WorldState) (i : ℕ) : WorldState :=
  let c := countryAt w i
  let tax_rate : ℚ := if c.government = Gov.right then 1/20 else 1/10
  let tax_income := pyInt ((c.population : ℚ) * tax_rate)
  let tax_income :=
    if c.government = Gov.right ∧ c.infrastructure_level > 70 then
      pyInt ((tax_income : ℚ) * (11/10))
    else tax_income
  let happiness_loss : ℚ := (if c.government = Gov.right then 2 else 5) +
    (if w.eco.global_pollution > 50 then 3 else 0)
  modifyCountry w i (fun c =>
    { c with
      money := c.money + tax_income,
      happiness := max 0 (c.happiness - happiness_loss) })

/-- Fixed trade targets of `trade_resources` (lines 389-394). -/
def tradeTarget : Res → ℤ
  | Res.oil => 30
  | Res.coal => 20
  | Res.gas => 20
  | Res.forest => 50

/-- `max(resource_needs, key=resource_needs.get)`: first key with maximal
need, in dict insertion order oil, coal, gas, forest. -/
def maxNeedRes (need : Res → ℤ) : Res :=
  [Res.oil, Res.coal, Res.gas, Res.forest].foldl
    (fun b r => if need r > need b then r else b) Res.oil

/-- Pollution cost per traded resource (line 416). -/
def tradePollution : Res → ℚ
  | Res.oil => 4
  | Res.coal => 6
  | Res.gas => 2
  | Res.forest => 1

/-- The random draws feeding `trade_resources`: the `randint(5, 20)`
amount and the `random()` acceptance draw. -/
structure TradeParams where
  amountDraw : ℤ
  acceptDraw : ℚ

/-- `Country.trade_resources` (lines 385-424), with `i` the calling
country and `j` its chosen partner (`partner == self` is object
identity, i.e. `j = i`). -/
def trade_resources (w : WorldState) (i j : ℕ) (p : TradeParams) : WorldState :=
  if j = i ∨ w.eco.ecosystem_health < 30 then w
  else
    let self := countryAt w i
    let partner := countryAt w j
    let need : Res → ℤ := fun r => tradeTarget r - self.resources r
    let resource := maxNeedRes need
    if need resource ≤ 0 ∨ partner.resources resource < 10 then w
    else
      let amount := min p.amountDraw (partner.resources resource)
      if partner.money < amount * 1000 then w
      else
        let relation : ℤ := 100 - |self.ideology_score - partner.ideology_score|
        let trade_chance : ℚ := 1/2 + (relation : ℚ) / 200 +
          (if get_diplomatic_status self partner = "friendly" then 1/10 else 0)
        if p.acceptDraw > trade_chance then
          -- rejected: tension +5 on both sides (lines 408-411)
          setCountry (setCountry w i (update_tension self partner.name 5)) j
            (update_tension partner self.name 5)
        else
          -- accepted (lines 412-422)
          let pinc := tradePollution resource
          let self' := update_tension
            { self with
              resources := fun r =>
                if r = resource then self.resources r + amount else self.resources r,
              money := self.money - amount * 1000,
              pollution := self.pollution + pinc }
            partner.name (-5)
          let partner' := update_tension
            { partner with
              resources := fun r =>
                if r = resource then partner.resources r - amount else partner.resources r,
              money := partner.money + amount * 1000 }
            self.name (-5)
          { setCountry (setCountry w i self') j partner' with
            eco := { w.eco with regional_pollution := fun n =>
              if n = self.name then w.eco.regional_pollution n + pinc
              else w.eco.regional_pollution n } }

/-- One iteration of the ideology-alignment loop of
`join_environment_agreement` (lines 356-361): if the country at index `j`
is another member of the agreement, ease tension on both sides by −5 and
set both ideology scores to the floor-average. -/
def agreeIdeologyStep (i : ℕ) (acc : WorldState) (j : ℕ) : WorldState :=
  if j ≠ i ∧ (countryAt acc j).environment_agreement then
    let acc1 := modifyCountry acc i (fun c =>
      update_tension c (countryAt acc j).name (-5))
    let acc2 := modifyCountry acc1 j (fun c =>
      update_tension c (countryAt acc1 i).name (-5))
    let ideo := Int.fdiv
      ((countryAt acc2 i).ideology_score + (countryAt acc2 j).ideology_score) 2
    let acc3 := modifyCountry acc2 i (fun c => { c with ideology_score := ideo })
    modifyCountry acc3 j (fun c => { c with ideology_score := ideo })
  else acc

/-- `Country.join_environment_agreement` (lines 339-383).  `act` is the
epsilon-greedy outcome of the agreement table. -/
def join_environment_agreement (w : WorldState) (i : ℕ) (act : AgreeAction) :
    WorldState :=
  let self := countryAt w i
  if self.environment_agreement then w
  else
    let s := get_state w.eco self none
    let oldHap := self.happiness
    let oldMon := self.money
    let oldPol := self.pollution
    let oldEco := w.eco.ecosystem_health
    let oldReb := self.rebellion_risk
    let w3 :=
      match act with
      | AgreeAction.join =>
        -- lines 350-355
        let w1 := modifyCountry w i (fun c =>
          { c with
            environment_agreement := true,
            pollution := max 0 (c.pollution - 10),
            money := pyInt ((c.money : ℚ) * (95/100)) })
        let w2 : WorldState := { w1 with eco := { w1.eco with
          ecosystem_health := min 100 (w1.eco.ecosystem_health + 5) } }
        -- lines 356-361: sequential loop over the other member countries
        (List.range w2.countries.length).foldl (agreeIdeologyStep i) w2
      | AgreeAction.refuse =>
        -- lines 364-370
        let w1 := modifyCountry w i (fun c =>
          { c with
            pollution := c.pollution + 5,
            happiness := max 0 (c.happiness - 2),
            rebellion_risk := c.rebellion_risk + 1/50 })
        { w1 with eco := { w1.eco with regional_pollution := fun n =>
            if n = self.name then w1.eco.regional_pollution n + 5
            else w1.eco.regional_pollution n } }
    -- lines 372-379: reward and table update
    let selfNow := countryAt w3 i
    let ns := get_state w3.eco selfNow none
    let reward := (selfNow.happiness - oldHap) +
      ((selfNow.money - oldMon : ℤ) : ℚ) / 10000000 -
      (selfNow.pollution - oldPol) / 10 +
      (w3.eco.ecosystem_health - oldEco) -
      (selfNow.rebellion_risk - oldReb) * 10
    modifyCountry w3 i (fun c => { c with agent := c.agent.updateAgree s act reward ns })

/-- Investment efficiency multiplier (lines 462-468): base 0.5 when the
shared ecosystem health is below 30 else 1.0, then ×1.2 for happiness
above 70 / ×0.8 for happiness below 30. -/
def investEfficiency (ecoHealth hap : ℚ) : ℚ :=
  (if ecoHealth < 30 then 1/2 else 1) *
    (if hap > 70 then 6/5 else if hap < 30 then 4/5 else 1)

/-- The deduction and booking of the invested amount (lines 460-461). -/
def investDeduct (amount : ℤ) (act : InvestAction) (c : Country) : Country :=
  { c with
    money := c.money - amount,
    investments := fun a =>
      if a = act then c.investments a + amount else c.investments a }

/-- Country-side effects of an "economy" investment (lines 470-487). -/
def investEconomyEffect (eff : ℚ) (c : Country) : Country :=
  let prodInc := (if c.government = Gov.right then 10 else 12) * eff
  let polInc := (if c.government = Gov.right then 7 else 5) * eff
  let monInc := (if c.government = Gov.right then 7/100 else 1/20) * eff
  let c1 := { c with
    production := c.production + prodInc,
    pollution := c.pollution + polInc }
  let c2 := { c1 with
    money := pyInt ((c1.money : ℚ) * (1 + monInc)),
    resources := fun r =>
      if r = Res.oil then c1.resources r + pyInt (5 * eff)
      else if r = Res.coal then c1.resources r + pyInt (5 * eff)
      else if r = Res.gas then c1.resources r + pyInt (3 * eff)
      else c1.resources r }
  if c2.government = Gov.left then
    { c2 with happiness := max 0 (c2.happiness - 2 * eff) }
  else c2

/-- Country-side effects of an "environment" investment (lines 488-500). -/
def investEnvironmentEffect (eff : ℚ) (c : Country) : Country :=
  let polDec := (if c.government = Gov.right then 10 else 12) * eff
  let c1 := { c with
    happiness := min 100 (c.happiness + 5 * eff),
    pollution := max 0 (c.pollution - polDec) }
  { c1 with
    money := pyInt ((c1.money : ℚ) * (1 + 1/50 * eff)),
    resources := fun r =>
      if r = Res.forest then c1.resources r + pyInt (5 * eff)
      else c1.resources r }

/-- Country-side effects of an "infrastructure" investment (lines 501-507). -/
def investInfraEffect (eff : ℚ) (c : Country) : Country :=
  let infraInc := (if c.government = Gov.right then 25 else 15) * eff
  let rebDec := (if c.government = Gov.right then 3/100 else 1/50) * eff
  { c with
    infrastructure_level := min 100 (c.infrastructure_level + infraInc),
    happiness := min 100 (c.happiness + 4 * eff),
    rebellion_risk := max 0 (c.rebellion_risk - rebDec) }

/-- `Country.make_investment_decision` (lines 443-517).  `act` is the
epsilon-greedy outcome of the investment table. -/
def make_investment_decision (w : WorldState) (i : ℕ) (act : InvestAction) :
    WorldState :=
  let self := countryAt w i
  if self.money < 10000000 then w
  else
    let s := get_state w.eco self none
    let investment_amount := pyInt ((self.money : ℚ) * (1/20))
    if investment_amount < 5000 then w
    else
      let oldHap := self.happiness
      let oldMon := self.money
      let oldPol := self.pollution
      let oldEco := w.eco.ecosystem_health
      let oldReb := self.rebellion_risk
      -- lines 460-461: deduct and book the investment
      let w0 := modifyCountry w i (investDeduct investment_amount act)
      let eff := investEfficiency w0.eco.ecosystem_health (countryAt w0 i).happiness
      let w3 :=
        match act with
        | InvestAction.economy =>
          let c := countryAt w0 i
          let polInc := (if c.government = Gov.right then 7 else 5) * eff
          { setCountry w0 i (investEconomyEffect eff c) with
            eco := { w0.eco with regional_pollution := fun n =>
              if n = c.name then w0.eco.regional_pollution n + polInc
              else w0.eco.regional_pollution n } }
        | InvestAction.environment =>
          let c := countryAt w0 i
          let polDec := (if c.government = Gov.right then 10 else 12) * eff
          let ecoInc := (if c.government = Gov.right then 3 else 7) * eff
          { setCountry w0 i (investEnvironmentEffect eff c) with
            eco := { w0.eco with
              regional_pollution := fun n =>
                if n = c.name then max 0 (w0.eco.regional_pollution n - polDec)
                else w0.eco.regional_pollution n,
              ecosystem_health := min 100 (w0.eco.ecosystem_health + ecoInc),
              global_pollution := max 0 (w0.eco.global_pollution - 2 * eff) } }
        | InvestAction.infrastructure =>
          modifyCountry w0 i (investInfraEffect eff)
      -- lines 508-515: reward and table update
      let selfNow := countryAt w3 i
      let ns := get_state w3.eco selfNow none
      let reward := (selfNow.happiness - oldHap) +
        ((selfNow.money - oldMon : ℤ) : ℚ) / 10000000 -
        (selfNow.pollution - oldPol) +
        (w3.eco.ecosystem_health - oldEco) * (1/2) -
        (selfNow.rebellion_risk - oldReb) * 10
      modifyCountry w3 i (fun c => { c with agent := c.agent.updateInvest s act reward ns })

/-- The random draws feeding `Country.rebellion`: the `random() < 0.25`
success draw and the `randint(30, 40)` happiness value of a failed
rebellion. -/
structure RebellionParams where
  successDraw : Bool
  failHappiness : ℤ

/-- `Country.rebellion` (lines 620-635). -/
def rebellion (w : WorldState) (i : ℕ) (p : RebellionParams) : WorldState :=
  modifyCountry w i (fun c =>
    let c := { c with
      population := pyInt ((c.population : ℚ) * (9/10)),
      military_power := pyInt ((c.military_power : ℚ) * (1/2)),
      money := pyInt ((c.money : ℚ) * (1/2)) }
    if p.successDraw then
      { c with
        government := if c.government = Gov.right then Gov.left else Gov.right,
        ideology_score := -c.ideology_score,
        happiness := 70 }
    else
      { c with happiness := (p.failHappiness : ℚ) })

/-! ## The yearly turn phases of `Country.simulate_turn` (lines 519-618),
in source order.  Each block of the method becomes one phase function;
`simulate_turn` is their in-order composition. -/

/-- Growth block (lines 521-525). -/
def turnGrowth (w : WorldState) (i : ℕ) : WorldState :=
  modifyCountry w i (fun c =>
    let population := c.population + pyInt ((c.population : ℚ) * (1/100))
    let production := c.production + (c.tech_level : ℚ) * (c.education_level : ℚ) * (1/10)
    { c with
      year := c.year + 1,
      population := population,
      production := production,
      money := c.money + pyInt (production * 1000) })

/-- Fuel-consumption block (lines 526-536). -/
def turnConsumption (w : WorldState) (i : ℕ) : WorldState :=
  let c := countryAt w i
  if c.production > 100 then
    let oilC := min 5 (c.resources Res.oil)
    let coalC := min 3 (c.resources Res.coal)
    let gasC := min 2 (c.resources Res.gas)
    let polInc : ℚ := (oilC : ℚ) * (3/2) + (coalC : ℚ) * 2 + (gasC : ℚ) * (1/2)
    let w1 := setCountry w i
      { c with
        resources := fun r =>
          if r = Res.oil then max 0 (c.resources Res.oil - oilC)
          else if r = Res.coal then max 0 (c.resources Res.coal - coalC)
          else if r = Res.gas then max 0 (c.resources Res.gas - gasC)
          else c.resources r,
        pollution := c.pollution + polInc }
    { w1 with eco := { w1.eco with regional_pollution := fun n =>
        if n = c.name then w1.eco.regional_pollution n + polInc
        else w1.eco.regional_pollution n } }
  else w

/-- Fuel-exhaustion penalties (lines 537-549). -/
def turnScarcity (w : WorldState) (i : ℕ) : WorldState :=
  modifyCountry w i (fun c =>
    let c :=
      if c.resources Res.oil = 0 then
        { c with
          production := c.production * (7/10),
          happiness := max 0 (c.happiness - 10),
          rebellion_risk := c.rebellion_risk + 1/10 }
      else c
    let c :=
      if c.resources Res.coal = 0 then
        { c with
          production := c.production * (8/10),
          happiness := max 0 (c.happiness - 5) }
      else c
    if c.resources Res.gas = 0 then
      { c with
        production := c.production * (9/10),
        money := c.money - 5000 }
    else c)

/-- Forest feedback, regeneration and government resource bonus
(lines 550-567). -/
def turnForest (w : WorldState) (i : ℕ) : WorldState :=
  let c := countryAt w i
  let w1 :=
    if c.resources Res.forest > 70 then
      let w' := modifyCountry w i (fun c =>
        { c with happiness := min 100 (c.happiness + 3) })
      { w' with eco := { w'.eco with
          ecosystem_health := min 100 (w'.eco.ecosystem_health + 1) } }
    else if c.resources Res.forest < 30 then
      modifyCountry w i (fun c =>
        { c with
          happiness := max 0 (c.happiness - 3),
          rebellion_risk := c.rebellion_risk + 1/20 })
    else w
  modifyCountry w1 i (fun c =>
    let c := { c with resources := fun r =>
      if r = Res.forest then c.resources Res.forest + 2 else c.resources r }
    if c.government = Gov.left then
      { c with resources := fun r => c.resources r + 3 }
    else
      { c with resources := fun r =>
          if r = Res.oil then c.resources Res.oil + 2
          else if r = Res.coal then c.resources Res.coal + 2
          else c.resources r })

/-- High-production pollution block (lines 568-571). -/
def turnProdPollution (w : WorldState) (i : ℕ) : WorldState :=
  let c := countryAt w i
  if c.production > 100 then
    let w1 := setCountry w i { c with pollution := c.pollution + 3 }
    { w1 with eco := { w1.eco with regional_pollution := fun n =>
        if n = c.name then w1.eco.regional_pollution n + 3
        else w1.eco.regional_pollution n } }
  else w

/-- Ecosystem-health feedback on the country (lines 572-581). -/
def turnEcoFeedback (w : WorldState) (i : ℕ) : WorldState :=
  if w.eco.ecosystem_health < 30 then
    modifyCountry w i (fun c =>
      { c with
        happiness := max 0 (c.happiness - 5),
        natural_disaster_risk := c.natural_disaster_risk + 1/5,
        rebellion_risk := c.rebellion_risk + 1/20 })
  else if w.eco.ecosystem_health > 70 then
    modifyCountry w i (fun c =>
      let happinessInc : ℚ := if c.government = Gov.right then 5 else 7
      { c with
        happiness := min 100 (c.happiness + happinessInc),
        money := pyInt ((c.money : ℚ) * (105/100)) })
  else w

/-- Sports-year block (lines 582-586); `draw` is `random() < 0.3`. -/
def turnSports (w : WorldState) (i : ℕ) (draw : Bool) : WorldState :=
  modifyCountry w i (fun c =>
    if c.year % 4 = 0 ∧ draw then
      { c with
        happiness := min 100 (c.happiness + 5),
        rebellion_risk := max 0 (c.rebellion_risk - 2),
        production := c.production * (11/10) }
    else c)

/-- Education-migration block (lines 587-591); `draw` is `random() < 0.2`. -/
def turnEduMigration (w : WorldState) (i : ℕ) (draw : Bool) : WorldState :=
  modifyCountry w i (fun c =>
    if c.education_level < 4 ∧ draw then
      { c with
        population := c.population - pyInt ((c.population : ℚ) * (1/100)),
        happiness := max 0 (c.happiness - 2) }
    else c)

/-- Tech-migration block (lines 592-596); `draw` is `random() < 0.15` and
`frac` the `uniform(0.03, 0.07)` draw. -/
def turnTechMigration (w : WorldState) (i : ℕ) (draw : Bool) (frac : ℚ) : WorldState :=
  modifyCountry w i (fun c =>
    if c.tech_level < 5 ∧ draw then
      { c with
        population := c.population - pyInt ((c.population : ℚ) * frac),
        happiness := max 0 (c.happiness - 5) }
    else c)

/-- Political check every 4th year (lines 602-609). -/
def turnPolitical (w : WorldState) (i : ℕ) : WorldState :=
  modifyCountry w i (fun c =>
    if c.year % 4 = 0 then
      if c.happiness > 50 then c
      else
        { c with
          government := if c.government = Gov.right then Gov.left else Gov.right,
          ideology_score := -c.ideology_score,
          happiness := 70 }
    else c)

/-- Rebellion check (lines 610-611). -/
def turnRebellionCheck (w : WorldState) (i : ℕ) (p : RebellionParams) : WorldState :=
  let c := countryAt w i
  if c.happiness < 20 ∧ c.has_rebelled_this_year = false then rebellion w i p
  else w

/-- Year-end happiness floor and flag reset (lines 612-614). -/
def turnYearEnd (w : WorldState) (i : ℕ) : WorldState :=
  modifyCountry w i (fun c =>
    let c := if c.happiness < 0 then { c with happiness := 0 } else c
    { c with has_rebelled_this_year := false })

/-- The random draws of one full `simulate_turn` for one country. -/
structure TurnParams where
  sportsDraw : Bool
  eduDraw : Bool
  techDraw : Bool
  techFrac : ℚ
  tradePartner : ℕ
  trade : TradeParams
  agreeAction : AgreeAction
  investAction : InvestAction
  rebellionDraws : RebellionParams

/-- `Country.simulate_turn` (lines 519-618): the in-order composition of
the phase blocks above and the decision operations. -/
def simulate_turn (w : WorldState) (i : ℕ) (p : TurnParams) : WorldState :=
  let w := turnGrowth w i
  let w := turnConsumption w i
  let w := turnScarcity w i
  let w := turnForest w i
  let w := turnProdPollution w i
  let w := turnEcoFeedback w i
  let w := turnSports w i p.sportsDraw
  let w := turnEduMigration w i p.eduDraw
  let w := turnTechMigration w i p.techDraw p.techFrac
  let w := collect_taxes w i
  let w := trade_resources w i p.tradePartner p.trade
  let w := join_environment_agreement w i p.agreeAction
  let w := make_investment_decision w i p.investAction
  let w := turnPolitical w i
  let w := turnRebellionCheck w i p.rebellionDraws
  turnYearEnd w i

/-- The per-year body of `simulate_world` (lines 674-685) before the
parallel country-turn phase: fire global events, then resolve wars. -/
def yearPrelude (w : WorldState) (year : ℕ) (gp : GlobalEventParams)
    (wp : WarParams) : WorldState :=
  simulate_war (simulate_global_events w year gp) year wp

/-! ## Q-table bookkeeping used by the table-initialization claim -/

/-- A fresh `defaultdict` table: every state reads as a zero-valued entry
for every action. -/
def zeroQ {A : Type} : QTable A := fun _ _ => 0

/-- A sequence of `RLAgent.update` calls applied to one table. -/
def applyQUpdates {A : Type} [DecidableEq A] (acts : List A) (alpha gamma : ℚ) :
    QTable A → List (QKey × A × ℚ × QKey) → QTable A
  | q, [] => q
  | q, u :: rest =>
    applyQUpdates acts alpha gamma
      (qUpdate acts alpha gamma q u.1 u.2.1 u.2.2.1 u.2.2.2) rest

/-! ## Invariants and the reachable-state relation -/

/-- Every stored tension value lies in [0, 100]. -/
def TensionInv (l : List (String × ℤ)) : Prop :=
  ∀ p ∈ l, 0 ≤ p.2 ∧ p.2 ≤ 100

/-- Per-country invariant claimed by the spec: happiness in [0, 100],
rebellion risk non-negative, tension values in [0, 100]. -/
def CInv (c : Country) : Prop :=
  0 ≤ c.happiness ∧ c.happiness ≤ 100 ∧ 0 ≤ c.rebellion_risk ∧
    TensionInv c.tension_score

/-- Ecosystem invariant claimed by the spec: health in [0, 100] and alarm
level in {0, 1, 2, 3}. -/
def EInv (e : Ecosystem) : Prop :=
  0 ≤ e.ecosystem_health ∧ e.ecosystem_health ≤ 100 ∧ e.alarm_level ≤ 3

/-- Whole-state invariant. -/
def StateInv (w : WorldState) : Prop :=
  (∀ c ∈ w.countries, CInv c) ∧ EInv w.eco

/-- One atomic operation of the program: the ecosystem operations, the
orchestrator operations, and each phase block of a country's yearly turn.
Every `random` draw is a universally quantified parameter; parameters
that feed clamped updates carry no constraint, while the
`randint(30, 40)` happiness of a failed rebellion keeps its source range
because it is stored unclamped. -/
inductive Step : WorldState → WorldState → Prop
  | pollution (w : WorldState) : Step w (update_pollution w)
  | alarm (w : WorldState) : Step w (soundAlarmW w)
  | disasters (w : WorldState) (p : DisasterParams) : Step w (trigger_disasters w p)
  | events (w : WorldState) (year : ℕ) (p : GlobalEventParams) :
      Step w (simulate_global_events w year p)
  | war (w : WorldState) (year : ℕ) (p : WarParams) : Step w (simulate_war w year p)
  | growth (w : WorldState) (i : ℕ) : Step w (turnGrowth w i)
  | consumption (w : WorldState) (i : ℕ) : Step w (turnConsumption w i)
  | scarcity (w : WorldState) (i : ℕ) : Step w (turnScarcity w i)
  | forest (w : WorldState) (i : ℕ) : Step w (turnForest w i)
  | prodPollution (w : WorldState) (i : ℕ) : Step w (turnProdPollution w i)
  | ecoFeedback (w : WorldState) (i : ℕ) : Step w (turnEcoFeedback w i)
  | sports (w : WorldState) (i : ℕ) (d : Bool) : Step w (turnSports w i d)
  | eduMigration (w : WorldState) (i : ℕ) (d : Bool) : Step w (turnEduMigration w i d)
  | techMigration (w : WorldState) (i : ℕ) (d : Bool) (f : ℚ) :
      Step w (turnTechMigration w i d f)
  | taxes (w : WorldState) (i : ℕ) : Step w (collect_taxes w i)
  | trade (w : WorldState) (i j : ℕ) (p : TradeParams) : Step w (trade_resources w i j p)
  | agreement (w : WorldState) (i : ℕ) (a : AgreeAction) :
      Step w (join_environment_agreement w i a)
  | investment (w : WorldState) (i : ℕ) (a : InvestAction) :
      Step w (make_investment_decision w i a)
  | political (w : WorldState) (i : ℕ) : Step w (turnPolitical w i)
  | rebellionCheck (w : WorldState) (i : ℕ) (p : RebellionParams)
      (h30 : 30 ≤ p.failHappiness) (h40 : p.failHappiness ≤ 40) :
      Step w (turnRebellionCheck w i p)
  | yearEnd (w : WorldState) (i : ℕ) : Step w (turnYearEnd w i)

/-- Episode-start condition: what the per-episode setup establishes for
the invariant-carrying fields (country construction lines 300-322,
tension setup line 707, `Ecosystem.__init__` lines 88-94).  The learned
agent tables are deliberately unconstrained, since they persist across
episodes. -/
def InitState (w : WorldState) : Prop :=
  (∀ c ∈ w.countries,
    c.happiness = 70 ∧ c.rebellion_risk = 0 ∧
    10 ≤ c.pollution ∧ c.pollution ≤ 20 ∧
    ∀ p ∈ c.tension_score, 40 ≤ p.2 ∧ p.2 ≤ 60) ∧
  w.eco.ecosystem_health = 60 ∧ w.eco.alarm_level = 0

/-- States reachable from an episode start by any sequence of program
operations. -/
inductive Reachable : WorldState → Prop
  | init (w : WorldState) (h : InitState w) : Reachable w
  | step (w w' : WorldState) (hw : Reachable w) (hs : Step w w') : Reachable w'

/-! ## Specification predicates for individual claims -/

/-- Sum of the other countries' raw pollution values. -/
def othersPollution (cs : List Country) (i : ℕ) : ℚ :=
  (((List.range cs.length).filter (fun j => j ≠ i)).map
    (fun j => (cs.getD j default).pollution)).sum

/-- The effect `update_pollution` is specified to have: global pollution
becomes the mean; each country's regional entry becomes its own pollution
plus 10% of the sum of the others'; countries over the 50 threshold take
the fixed penalty and the rest are untouched; ecosystem health decays by
`floor(globalPollution/5)` clamped into [0, 100]. -/
def UpdatePollutionSpec (w : WorldState) : Prop :=
  (update_pollution w).eco.global_pollution =
      (w.countries.map (fun c => c.pollution)).sum / w.countries.length ∧
  (∀ i, i < w.countries.length →
    (update_pollution w).eco.regional_pollution ((w.countries.getD i default).name) =
      (w.countries.getD i default).pollution + othersPollution w.countries i / 10) ∧
  (∀ i, i < w.countries.length →
    ((w.countries.getD i default).pollution + othersPollution w.countries i / 10 > 50 →
      ((update_pollution w).countries.getD i default).happiness =
          max 0 ((w.countries.getD i default).happiness - 5) ∧
      ((update_pollution w).countries.getD i default).resources Res.forest =
          max 0 ((w.countries.getD i default).resources Res.forest - 10) ∧
      ((update_pollution w).countries.getD i default).rebellion_risk =
          (w.countries.getD i default).rebellion_risk + 1/20) ∧
    (¬ (w.countries.getD i default).pollution + othersPollution w.countries i / 10 > 50 →
      (update_pollution w).countries.getD i default = w.countries.getD i default)) ∧
  (update_pollution w).eco.ecosystem_health =
    max 0 (min 100 (w.eco.ecosystem_health -
      (⌊(update_pollution w).eco.global_pollution / 5⌋ : ℚ)))

/-! ## Concrete states used by the witnesses -/

/-- A concrete country matching the per-episode construction. -/
def countryA : Country where
  name := "A"
  population := 20000000
  resources := fun _ => 100
  natural_disaster_risk := 1/2
  government := Gov.right
  ideology_score := 40
  money := 200000000
  military_power := 100
  happiness := 70
  tech_level := 3
  education_level := 3
  pollution := 15
  production := 100
  investments := fun _ => 0
  infrastructure_level := 50
  rebellion_risk := 0
  year := 0
  has_rebelled_this_year := false
  tension_score := [("B", 50)]
  environment_agreement := false
  agent := defaultAgent

def countryB : Country :=
  { countryA with name := "B", government := Gov.left, tension_score := [("A", 50)] }

def ecoInit : Ecosystem where
  global_pollution := 15
  regional_pollution := fun _ => 15
  ecosystem_health := 60
  alarm_level := 0

/-- A concrete episode-start world with two countries. -/
def wInit : WorldState where
  countries := [countryA, countryB]
  eco := ecoInit
  global_events := ⟨false, false, false, false⟩
  global_events_done := fun _ => false

/-- `wInit` with the country at index 0 at happiness 80 and the ecosystem
at health 80, the configuration of the investment scenario. -/
def wScenario : WorldState :=
  { wInit with
    countries := [{ countryA with happiness := 80 }, countryB],
    eco := { ecoInit with ecosystem_health := 80 } }

/-- A concrete already-written Q-table used by the Q-update witness. -/
def qW : QTable WarAction := fun k _ => if k = ([1] : List ℚ) then 2 else 0

/-- A concrete update sequence not touching state `[9]`. -/
def usW : List (QKey × WarAction × ℚ × QKey) := [([2], WarAction.attack, 5, [3])]

/-! ## Utility lemmas -/

lemma pyInt_of_nonneg {q : ℚ} (h : 0 ≤ q) : pyInt q = ⌊q⌋ := by
  simp [pyInt, h]

lemma getD_set_self {α : Type} {l : List α} {i : ℕ} (hi : i < l.length) (a d : α) :
    (l.set i a).getD i d = a := by
  rw [List.getD_eq_getElem _ _ (by simpa using hi), List.getElem_set_self]

lemma getD_set_ne {α : Type} (l : List α) {i j : ℕ} (hij : i ≠ j) (a d : α) :
    (l.set i a).getD j d = l.getD j d := by
  simp [List.getD, List.getElem?_set_ne hij]

lemma countryAt_setCountry_self {w : WorldState} {i : ℕ}
    (hi : i < w.countries.length) (c : Country) :
    countryAt (setCountry w i c) i = c :=
  getD_set_self hi c default

lemma countryAt_setCountry_ne {w : WorldState} {i j : ℕ} (hij : i ≠ j) (c : Country) :
    countryAt (setCountry w i c) j = countryAt w j :=
  getD_set_ne w.countries hij c default

lemma countryAt_modify_self {w : WorldState} {i : ℕ}
    (hi : i < w.countries.length) (f : Country → Country) :
    countryAt (modifyCountry w i f) i = f (countryAt w i) :=
  countryAt_setCountry_self hi _

lemma length_setCountry (w : WorldState) (i : ℕ) (c : Country) :
    (setCountry w i c).countries.length = w.countries.length :=
  List.length_set ..

lemma length_modifyCountry (w : WorldState) (i : ℕ) (f : Country → Country) :
    (modifyCountry w i f).countries.length = w.countries.length :=
  List.length_set ..

lemma countryAt_mk (cs : List Country) (e : Ecosystem) (g : GEFlags)
    (d : ℕ → Bool) (k : ℕ) :
    countryAt ⟨cs, e, g, d⟩ k = cs.getD k default := rfl

lemma setCountry_countries (w : WorldState) (i : ℕ) (c : Country) :
    (setCountry w i c).countries = w.countries.set i c := rfl

lemma resources_update_tension (c : Country) (pn : String) (ch : ℤ) :
    (update_tension c pn ch).resources = c.resources := rfl

lemma getD_set_set_fst {α : Type} {l : List α} {i j : ℕ} (hij : j ≠ i)
    (hi : i < l.length) (a b d : α) :
    ((l.set i a).set j b).getD i d = a := by
  rw [getD_set_ne _ hij, getD_set_self hi]

lemma getD_set_set_snd {α : Type} {l : List α} {i j : ℕ} (hj : j < l.length)
    (a b d : α) :
    ((l.set i a).set j b).getD j d = b :=
  getD_set_self (by simpa using hj) b d

lemma countryAt_setset_fst {w : WorldState} {i j : ℕ} (hij : j ≠ i)
    (hi : i < w.countries.length) (a b : Country) :
    countryAt (setCountry (setCountry w i a) j b) i = a :=
  getD_set_set_fst hij hi a b default

lemma countryAt_setset_snd {w : WorldState} {i j : ℕ} (hj : j < w.countries.length)
    (a b : Country) :
    countryAt (setCountry (setCountry w i a) j b) j = b :=
  getD_set_set_snd hj a b default

lemma pollution_agent_modify (w : WorldState) (i : ℕ) (hi : i < w.countries.length)
    (g : Country → Country) (hg : ∀ c, (g c).pollution = c.pollution) :
    (countryAt (modifyCountry w i g) i).pollution = (countryAt w i).pollution := by
  rw [countryAt_modify_self hi, hg]

lemma getD_set_modify {w : WorldState} {i : ℕ} {f : Country → Country} {c : Country}
    (hi : i < w.countries.length) :
    ((modifyCountry w i f).countries.set i c).getD i default = c :=
  getD_set_self (by rw [length_modifyCountry]; exact hi) c default

lemma foldl_preserve {β : Type} {P : WorldState → Prop} {f : WorldState → β → WorldState}
    (hf : ∀ w b, P w → P (f w b)) :
    ∀ (l : List β) (w : WorldState), P w → P (l.foldl f w) := by
  intro l
  induction l with
  | nil => intro w h; exact h
  | cons b rest ih => intro w h; exact ih _ (hf w b h)

/-! ## C4: the Q-update rule and zero-initialization -/

lemma qUpdate_apply_ne {A : Type} [DecidableEq A] (acts : List A) (al ga : ℚ)
    (q : QTable A) (s : QKey) (a : A) (r : ℚ) (s' : QKey) {t : QKey} {b : A}
    (ht : t ≠ s) : qUpdate acts al ga q s a r s' t b = q t b := by
  simp only [qUpdate]
  rw [if_neg]
  intro hc
  exact ht hc.1

lemma applyQUpdates_notouch {A : Type} [DecidableEq A] (acts : List A) (al ga : ℚ)
    (t : QKey) (b : A) :
    ∀ (us : List (QKey × A × ℚ × QKey)) (q : QTable A),
      (∀ u ∈ us, u.1 ≠ t) → q t b = 0 →
      applyQUpdates acts al ga q us t b = 0 := by
  intro us
  induction us with
  | nil => intro q _ h0; exact h0
  | cons u rest ih =>
    intro q hne h0
    simp only [applyQUpdates]
    refine ih _ (fun v hv => hne v (List.mem_cons_of_mem _ hv)) ?_
    rw [qUpdate_apply_ne]
    · exact h0
    · exact fun h => hne u (List.mem_cons_self _ _) h.symm

/-- C4: for every Q-table, one `RLAgent.update` call rewrites the touched
entry to exactly `q + α·(r + γ·m − q)` with α = 0.1 and γ = 0.9 (the
constants set by `RLAgent.__init__`), where `m` is the maximum action
value of the next state; and a state key never written reads as a
zero-valued entry for every action in the table's fixed action domain. -/
theorem q_update_exact {A : Type} [DecidableEq A] (acts : List A)
    (q : QTable A) (s : QKey) (a : A) (r m : ℚ) (s' : QKey)
    (hm : valsMax acts (q s') = m)
    (us : List (QKey × A × ℚ × QKey)) (t : QKey) (b : A)
    (ht : ∀ u ∈ us, u.1 ≠ t) :
    defaultAgent.alpha = 1/10 ∧ defaultAgent.gamma = 9/10 ∧
    qUpdate acts defaultAgent.alpha defaultAgent.gamma q s a r s' s a =
      q s a + 1/10 * (r + 9/10 * m - q s a) ∧
    applyQUpdates acts defaultAgent.alpha defaultAgent.gamma zeroQ us t b = 0 := by
  refine ⟨rfl, rfl, ?_, ?_⟩
  · simp only [qUpdate, defaultAgent]
    simp [hm]
  · exact applyQUpdates_notouch acts _ _ t b us zeroQ ht rfl

/-- Witness for C4 at a concrete table, state and update list. -/
theorem q_update_exact_witness :
    valsMax warActions (qW [1]) = 2 ∧
    (∀ u ∈ usW, u.1 ≠ ([9] : QKey)) ∧
    (defaultAgent.alpha = 1/10 ∧ defaultAgent.gamma = 9/10 ∧
     qUpdate warActions defaultAgent.alpha defaultAgent.gamma qW [0] WarAction.attack 3 [1]
        [0] WarAction.attack =
       qW [0] WarAction.attack + 1/10 * (3 + 9/10 * 2 - qW [0] WarAction.attack) ∧
     applyQUpdates warActions defaultAgent.alpha defaultAgent.gamma zeroQ usW
        [9] WarAction.peace = 0) :=
  ⟨by decide, by decide,
    q_update_exact warActions qW [0] WarAction.attack 3 2 [1] (by decide)
      usW [9] WarAction.peace (by decide)⟩

/-! ## C6: the alarm escalation rule -/

/-- C6: one `sound_alarm` call scans the thresholds 30/50/70 in
increasing order and raises the alarm level to the ordinal of the first
exceeded threshold whose ordinal is above the current level, then stops;
the level never decreases and nothing else changes. -/
theorem sound_alarm_escalation (e : Ecosystem) :
    ((sound_alarm e).alarm_level =
      if e.global_pollution > 30 ∧ e.alarm_level < 1 then 1
      else if e.global_pollution > 50 ∧ e.alarm_level < 2 then 2
      else if e.global_pollution > 70 ∧ e.alarm_level < 3 then 3
      else e.alarm_level) ∧
    e.alarm_level ≤ (sound_alarm e).alarm_level ∧
    (sound_alarm e).global_pollution = e.global_pollution ∧
    (sound_alarm e).regional_pollution = e.regional_pollution ∧
    (sound_alarm e).ecosystem_health = e.ecosystem_health := by
  refine ⟨?_, ?_, rfl, rfl, rfl⟩
  · simp only [sound_alarm, soundAlarmLoop]
  · simp only [sound_alarm, soundAlarmLoop]
    split_ifs with h1 h2 h3
    · exact Nat.le_of_lt h1.2
    · exact Nat.le_of_lt h2.2
    · exact Nat.le_of_lt h3.2
    · exact Nat.le_refl _

/-! ## C8: the disaster severity multiplier -/

/-- C8: the severity multiplier applied by every disaster in
`trigger_disasters` is exactly 2 below infrastructure 50, exactly 0.5
above 70 and exactly 1 in between; in particular 49 ↦ 2, 71 ↦ 0.5 and
50, 60, 70 ↦ 1. -/
theorem disaster_multiplier_bands :
    (∀ l : ℚ,
      (l < 50 → disasterMultiplier l = 2) ∧
      (70 < l → disasterMultiplier l = 1/2) ∧
      (50 ≤ l → l ≤ 70 → disasterMultiplier l = 1)) ∧
    disasterMultiplier 49 = 2 ∧ disasterMultiplier 71 = 1/2 ∧
    disasterMultiplier 50 = 1 ∧ disasterMultiplier 60 = 1 ∧
    disasterMultiplier 70 = 1 := by
  refine ⟨fun l => ⟨?_, ?_, ?_⟩, ?_, ?_, ?_, ?_, ?_⟩
  · intro h; simp [disasterMultiplier, h]
  · intro h
    have hn : ¬ l < 50 := by linarith
    simp [disasterMultiplier, hn, h]
  · intro h1 h2
    have hn : ¬ l < 50 := not_lt.2 h1
    have hn2 : ¬ 70 < l := not_lt.2 h2
    simp [disasterMultiplier, hn, hn2]
  all_goals norm_num [disasterMultiplier]

/-- Witness for C8 at the concrete boundary value 49. -/
theorem disaster_multiplier_bands_witness :
    (49 : ℚ) < 50 ∧ disasterMultiplier 49 = 2 :=
  ⟨by norm_num, (disaster_multiplier_bands.1 49).1 (by norm_num)⟩

/-! ## C10: the silent trade-disabling guard -/

lemma trade_noop_of_guard (w : WorldState) (i j : ℕ) (p : TradeParams)
    (h : j = i ∨ w.eco.ecosystem_health < 30) :
    trade_resources w i j p = w := by
  unfold trade_resources
  exact if_pos h

/-- C10: `trade_resources` returns with the whole world state unchanged
whenever the chosen partner is the country itself or the shared
ecosystem health is below 30 (lines 385-388). -/
theorem trade_disabled_guard (w : WorldState) (i j : ℕ) (p : TradeParams)
    (h : j = i ∨ w.eco.ecosystem_health < 30) :
    trade_resources w i j p = w :=
  trade_noop_of_guard w i j p h

/-- Witness for C10: a self-trade on the concrete start world. -/
theorem trade_disabled_guard_witness :
    ((0 : ℕ) = 0 ∨ wInit.eco.ecosystem_health < 30) ∧
    trade_resources wInit 0 0 ⟨5, 0⟩ = wInit :=
  ⟨Or.inl rfl, trade_disabled_guard wInit 0 0 ⟨5, 0⟩ (Or.inl rfl)⟩

/-! ## C3 and C1: the per-year done flag -/

lemma ged_update_pollution (w : WorldState) :
    (update_pollution w).global_events_done = w.global_events_done := by
  unfold update_pollution
  split <;> rfl

lemma ged_soundAlarmW (w : WorldState) :
    (soundAlarmW w).global_events_done = w.global_events_done := rfl

lemma ged_floodFold :
    ∀ (l : List ℕ) (w : WorldState),
      (l.foldl applyFloodOne w).global_events_done = w.global_events_done := by
  intro l
  induction l with
  | nil => intro w; rfl
  | cons x xs ih =>
    intro w
    rw [List.foldl_cons, ih]
    rfl

lemma ged_trigger_disasters (w : WorldState) (p : DisasterParams) :
    (trigger_disasters w p).global_events_done = w.global_events_done := by
  simp only [trigger_disasters]
  split_ifs <;> first | rfl | (rw [ged_floodFold]; try rfl)

lemma ged_applyPandemic (w : WorldState) :
    (applyPandemic w).global_events_done = w.global_events_done := rfl

lemma ged_applyMeteor (w : WorldState) (loss : ℕ → Res → ℤ) :
    (applyMeteor w loss).global_events_done = w.global_events_done := rfl

lemma ged_applyCrash (w : WorldState) :
    (applyCrash w).global_events_done = w.global_events_done := rfl

lemma ged_applyBlackout (w : WorldState) :
    (applyBlackout w).global_events_done = w.global_events_done := rfl

lemma ged_simulate_global_events (w : WorldState) (year : ℕ) (p : GlobalEventParams)
    (h1 : ¬(year < 1 ∨ 20 < year)) (h2 : w.global_events_done year = false) :
    (simulate_global_events w year p).global_events_done year = true := by
  simp only [simulate_global_events]
  rw [if_neg h1, if_neg (by simp [h2])]
  rw [ged_trigger_disasters, ged_soundAlarmW, ged_update_pollution]
  split_ifs <;>
    simp [ged_applyBlackout, ged_applyCrash, ged_applyMeteor, ged_applyPandemic]

lemma sge_noop_of_range (w : WorldState) (year : ℕ) (p : GlobalEventParams)
    (h : year < 1 ∨ 20 < year) : simulate_global_events w year p = w := by
  simp only [simulate_global_events]
  rw [if_pos h]

lemma sge_noop_of_done (w : WorldState) (year : ℕ) (p : GlobalEventParams)
    (h1 : ¬(year < 1 ∨ 20 < year)) (h2 : w.global_events_done year = true) :
    simulate_global_events w year p = w := by
  simp only [simulate_global_events]
  rw [if_neg h1, if_pos (by simp [h2])]

lemma sw_noop_of_range (w : WorldState) (year : ℕ) (p : WarParams)
    (h : year < 1 ∨ 20 < year) : simulate_war w year p = w := by
  simp only [simulate_war]
  rw [if_pos h]

lemma sw_noop_of_done (w : WorldState) (year : ℕ) (p : WarParams)
    (h1 : ¬(year < 1 ∨ 20 < year)) (h2 : w.global_events_done year = true) :
    simulate_war w year p = w := by
  simp only [simulate_war]
  rw [if_neg h1, if_pos (by simp [h2])]

/-- C3: firing the global events a second time for the same year changes
nothing — the done flag is checked-and-set before any effect, so the
second call returns with the state produced by the first call. -/
theorem global_events_idempotent (w : WorldState) (year : ℕ)
    (p p' : GlobalEventParams) :
    simulate_global_events (simulate_global_events w year p) year p' =
      simulate_global_events w year p := by
  by_cases h1 : year < 1 ∨ 20 < year
  · rw [sge_noop_of_range w year p h1, sge_noop_of_range w year p' h1]
  · by_cases h2 : w.global_events_done year = true
    · rw [sge_noop_of_done w year p h1 h2, sge_noop_of_done w year p' h1 h2]
    · exact sge_noop_of_done _ year p' h1
        (ged_simulate_global_events w year p h1 (by simpa using h2))

/-- C1 (code bug): in the per-year flow of `simulate_world`
(lines 676-677) war resolution runs right after global-event firing; but
the guard of `simulate_war` (lines 219-221) returns as soon as
`global_events_done[year]` is set — the very flag `simulate_global_events`
establishes — so the war phase never modifies the state, regardless of
tensions, the shuffled candidate list, or the chosen war actions. -/
theorem simulate_war_noop_after_global_events (w : WorldState) (year : ℕ)
    (gp : GlobalEventParams) (wp : WarParams) :
    yearPrelude w year gp wp = simulate_global_events w year gp := by
  unfold yearPrelude
  by_cases h1 : year < 1 ∨ 20 < year
  · rw [sge_noop_of_range w year gp h1, sw_noop_of_range w year wp h1]
  · by_cases h2 : w.global_events_done year = true
    · rw [sge_noop_of_done w year gp h1 h2, sw_noop_of_done w year wp h1 h2]
    · exact sw_noop_of_done _ year wp h1
        (ged_simulate_global_events w year gp h1 (by simpa using h2))

/-! ## C5: characterization of `update_pollution` -/

lemma mem_enum_of_lt {l : List Country} {i : ℕ} (h : i < l.length) :
    (i, l[i]) ∈ l.enum := by
  have hi : i < l.enum.length := by simp [h]
  have hg : l.enum[i] = (i, l[i]) := by simp [List.getElem_enum]
  rw [← hg]
  exact List.getElem_mem _

lemma regFold_ne (g : ℕ → ℚ) (n : String) :
    ∀ (l : List (ℕ × Country)) (f0 : String → ℚ),
      (∀ p ∈ l, p.2.name ≠ n) →
      (l.foldl (fun f p => fun m => if m = p.2.name then g p.1 else f m) f0) n = f0 n := by
  intro l
  induction l with
  | nil => intro f0 _; rfl
  | cons q rest ih =>
    intro f0 hne
    rw [List.foldl_cons, ih _ (fun p hp => hne p (List.mem_cons_of_mem _ hp))]
    have hq : n ≠ q.2.name := fun h => hne q (List.mem_cons_self _ _) h.symm
    simp [hq]

lemma regFold_unique (g : ℕ → ℚ) (n : String) :
    ∀ (l : List (ℕ × Country)) (f0 : String → ℚ) (i : ℕ) (c : Country),
      (i, c) ∈ l → c.name = n →
      (l.map (fun p => p.2.name)).Nodup →
      (l.foldl (fun f p => fun m => if m = p.2.name then g p.1 else f m) f0) n = g i := by
  intro l
  induction l with
  | nil => intro f0 i c h; exact absurd h (List.not_mem_nil _)
  | cons q rest ih =>
    intro f0 i c hmem hname hnd
    rw [List.foldl_cons]
    rcases List.mem_cons.1 hmem with heq | hmem'
    · subst heq
      have hrest : ∀ p ∈ rest, p.2.name ≠ n := by
        intro p hp hpn
        exact (List.nodup_cons.1 hnd).1
          (List.mem_map.2 ⟨p, hp, hpn.trans hname.symm⟩)
      rw [regFold_ne g n rest _ hrest]
      simp [hname]
    · exact ih _ i c hmem' hname (List.nodup_cons.1 hnd).2

lemma neighborPollutionSum_eq (cs : List Country) (i : ℕ) :
    neighborPollutionSum cs i = othersPollution cs i / 10 := by
  unfold neighborPollutionSum othersPollution
  generalize (List.range cs.length).filter (fun j => j ≠ i) = l
  induction l with
  | nil => simp
  | cons x xs ih =>
    simp only [List.map_cons, List.sum_cons, ih]
    ring

lemma enum_names_nodup {cs : List Country}
    (h : (cs.map (fun c => c.name)).Nodup) :
    (cs.enum.map (fun p => p.2.name)).Nodup := by
  have : cs.enum.map (fun p => p.2.name) = cs.map (fun c => c.name) := by
    rw [show (fun p : ℕ × Country => p.2.name) = (fun c : Country => c.name) ∘ Prod.snd from rfl,
      ← List.map_map, List.enum_map_snd]
  rw [this]
  exact h

/-- C5: after one `update_pollution` call, global pollution is the mean
of all countries' pollution, every country's regional entry is its own
pollution plus one tenth of the sum of the others', exactly the countries
whose fresh regional value exceeds 50 take the happiness −5 / forest −10
/ rebellion-risk +0.05 penalty, and ecosystem health decays by
`⌊globalPollution/5⌋` clamped into [0, 100]. -/
theorem update_pollution_spec (w : WorldState)
    (hne : w.countries.length ≠ 0)
    (hpol : ∀ c ∈ w.countries, 0 ≤ c.pollution)
    (hnames : (w.countries.map (fun c => c.name)).Nodup) :
    UpdatePollutionSpec w := by
  have hg : (update_pollution w).eco.global_pollution =
      (w.countries.map (fun c => c.pollution)).sum / w.countries.length := by
    simp only [update_pollution]
    rw [if_neg hne]
  have hg0 : 0 ≤ (update_pollution w).eco.global_pollution := by
    rw [hg]
    apply div_nonneg
    · apply List.sum_nonneg
      intro x hx
      obtain ⟨c, hc, rfl⟩ := List.mem_map.1 hx
      exact hpol c hc
    · positivity
  have hcountries : (update_pollution w).countries =
      w.countries.enum.map (fun p =>
        if regionalValue w.countries p.1 > 50 then pollutionPenalty p.2 else p.2) := by
    simp only [update_pollution]
    rw [if_neg hne]
  have hreg : ∀ i, i < w.countries.length →
      (update_pollution w).eco.regional_pollution ((w.countries.getD i default).name) =
        regionalValue w.countries i := by
    intro i hi
    have hr : (update_pollution w).eco.regional_pollution =
        w.countries.enum.foldl
          (fun f p => fun n => if n = p.2.name then regionalValue w.countries p.1 else f n)
          w.eco.regional_pollution := by
      simp only [update_pollution]
      rw [if_neg hne]
    rw [hr]
    have hget : w.countries.getD i default = w.countries[i] :=
      List.getD_eq_getElem _ _ hi
    rw [hget]
    exact regFold_unique (regionalValue w.countries) (w.countries[i]).name
      w.countries.enum w.eco.regional_pollution i w.countries[i]
      (mem_enum_of_lt hi) rfl (enum_names_nodup hnames)
  refine ⟨hg, ?_, ?_, ?_⟩
  · intro i hi
    rw [hreg i hi]
    unfold regionalValue
    rw [neighborPollutionSum_eq]
  · intro i hi
    have hget : (update_pollution w).countries.getD i default =
        (if regionalValue w.countries i > 50
         then pollutionPenalty (w.countries.getD i default)
         else (w.countries.getD i default)) := by
      rw [hcountries]
      have hlen : i < (w.countries.enum.map (fun p =>
          if regionalValue w.countries p.1 > 50 then pollutionPenalty p.2 else p.2)).length := by
        simpa using hi
      rw [List.getD_eq_getElem _ _ hlen, List.getElem_map, List.getElem_enum,
        List.getD_eq_getElem _ _ hi]
    have hrv : regionalValue w.countries i =
        (w.countries.getD i default).pollution + othersPollution w.countries i / 10 := by
      unfold regionalValue
      rw [neighborPollutionSum_eq]
    constructor
    · intro hgt
      rw [hget, if_pos (by rw [hrv]; exact hgt)]
      exact ⟨rfl, by simp [pollutionPenalty], rfl⟩
    · intro hle
      rw [hget, if_neg (by rw [hrv]; exact hle)]
  · have hh : (update_pollution w).eco.ecosystem_health =
        max 0 (min 100 (w.eco.ecosystem_health -
          (pyInt ((update_pollution w).eco.global_pollution / 5) : ℚ))) := by
      conv_lhs => simp only [update_pollution]
      rw [if_neg hne]
      rw [hg]
    rw [hh, pyInt_of_nonneg (by positivity)]

/-- Witness for C5 at the concrete two-country start world. -/
theorem update_pollution_spec_witness :
    wInit.countries.length ≠ 0 ∧
    (∀ c ∈ wInit.countries, 0 ≤ c.pollution) ∧
    (wInit.countries.map (fun c => c.name)).Nodup ∧
    UpdatePollutionSpec wInit :=
  ⟨by decide, by decide, by decide,
    update_pollution_spec wInit (by decide) (by decide) (by decide)⟩

/-! ## C7: trade conserves the traded resource -/

/-- C7: a `trade_resources` call never changes the combined holdings of
the two involved countries in any resource; in particular when the
accepted-trade branch transfers amount A of resource X, the loss and the
gain cancel exactly. -/
theorem trade_conserves_resources (w : WorldState) (i j : ℕ) (p : TradeParams)
    (hi : i < w.countries.length) (hj : j < w.countries.length) (res : Res) :
    (countryAt (trade_resources w i j p) i).resources res +
      (countryAt (trade_resources w i j p) j).resources res =
      (countryAt w i).resources res + (countryAt w j).resources res := by
  by_cases h1 : j = i ∨ w.eco.ecosystem_health < 30
  · rw [trade_noop_of_guard w i j p h1]
  · have hji : j ≠ i := fun hh => h1 (Or.inl hh)
    simp only [trade_resources]
    rw [if_neg h1]
    split_ifs <;>
      first
      | rfl
      | (rw [countryAt_setset_fst hji hi, countryAt_setset_snd hj]
         rfl)
      | (simp only [countryAt_mk, setCountry_countries]
         rw [getD_set_set_fst hji hi, getD_set_set_snd hj,
           resources_update_tension, resources_update_tension]
         dsimp only
         split_ifs <;> ring)

/-- Witness for C7: a concrete accepted trade on the start world, where
country 0 (short 70 forest against the target of 50... it is not, so the
most-needed resource is forest) trades with country 1. -/
theorem trade_conserves_resources_witness :
    (0 : ℕ) < wInit.countries.length ∧ (1 : ℕ) < wInit.countries.length ∧
    (countryAt (trade_resources wInit 0 1 ⟨5, 0⟩) 0).resources Res.forest +
      (countryAt (trade_resources wInit 0 1 ⟨5, 0⟩) 1).resources Res.forest =
      (countryAt wInit 0).resources Res.forest +
        (countryAt wInit 1).resources Res.forest :=
  ⟨by decide, by decide,
    trade_conserves_resources wInit 0 1 ⟨5, 0⟩ (by decide) (by decide) Res.forest⟩

/-! ## C9: the environment-investment scenario -/

lemma investEnvironmentEffect_pollution (e : ℚ) (c : Country) :
    (investEnvironmentEffect e c).pollution =
      max 0 (c.pollution - (if c.government = Gov.right then 10 else 12) * e) := rfl

lemma investDeduct_pollution (a : ℤ) (act : InvestAction) (c : Country) :
    (investDeduct a act c).pollution = c.pollution := rfl

lemma investDeduct_government (a : ℤ) (act : InvestAction) (c : Country) :
    (investDeduct a act c).government = c.government := rfl

lemma investDeduct_happiness (a : ℤ) (act : InvestAction) (c : Country) :
    (investDeduct a act c).happiness = c.happiness := rfl

/-- C9: a country with money 200,000,000 and happiness 80 investing in
"environment" while the shared ecosystem health is 80 gets efficiency
1.2 (= 6/5), and its own pollution drops by 10×1.2 = 12 under a right
government or 12×1.2 = 14.4 (= 72/5) under a left government, clamped
below at 0. -/
theorem invest_environment_scenario (w : WorldState) (i : ℕ)
    (hi : i < w.countries.length)
    (hmon : (countryAt w i).money = 200000000)
    (hhap : (countryAt w i).happiness = 80)
    (heco : w.eco.ecosystem_health = 80) :
    investEfficiency w.eco.ecosystem_health (countryAt w i).happiness = 6/5 ∧
    (countryAt (make_investment_decision w i InvestAction.environment) i).pollution =
      max 0 ((countryAt w i).pollution -
        (if (countryAt w i).government = Gov.right then 12 else 72/5)) := by
  have heff : investEfficiency w.eco.ecosystem_health (countryAt w i).happiness = 6/5 := by
    rw [heco, hhap]
    norm_num [investEfficiency]
  have hecoW : ∀ f : Country → Country, (modifyCountry w i f).eco = w.eco := fun _ => rfl
  refine ⟨heff, ?_⟩
  simp only [make_investment_decision]
  rw [if_neg (by rw [hmon]; norm_num)]
  rw [if_neg (by rw [hmon]; norm_num [pyInt])]
  rw [pollution_agent_modify]
  · simp only [countryAt_mk, setCountry_countries]
    rw [getD_set_modify hi, investEnvironmentEffect_pollution, countryAt_modify_self hi,
      investDeduct_pollution, investDeduct_government, investDeduct_happiness,
      hecoW, heff]
    split_ifs <;> norm_num
  · dsimp only
    rw [length_setCountry, length_modifyCountry]
    exact hi
  · intro c; rfl


theorem invest_environment_scenario_witness :
    (0 < wScenario.countries.length ∧
     (countryAt wScenario 0).money = 200000000 ∧
     (countryAt wScenario 0).happiness = 80 ∧
     wScenario.eco.ecosystem_health = 80) ∧
    (investEfficiency wScenario.eco.ecosystem_health (countryAt wScenario 0).happiness = 6/5 ∧
     (countryAt (make_investment_decision wScenario 0 InvestAction.environment) 0).pollution =
       max 0 ((countryAt wScenario 0).pollution -
         (if (countryAt wScenario 0).government = Gov.right then 12 else 72/5))) :=
  ⟨⟨by decide, by decide, by decide, by decide⟩,
    invest_environment_scenario wScenario 0 (by decide) (by decide) (by decide) (by decide)⟩

/-! ## C2: reachable-state invariants -/

lemma cinv_default : CInv (default : Country) := by
  refine ⟨by decide, by decide, by decide, ?_⟩
  intro p hp
  exact absurd hp (List.not_mem_nil p)

lemma cinv_countryAt {w : WorldState} (h : StateInv w) (i : ℕ) : CInv (countryAt w i) := by
  by_cases hi : i < w.countries.length
  · rw [countryAt, List.getD_eq_getElem _ _ hi]
    exact h.1 _ (List.getElem_mem hi)
  · rw [countryAt, List.getD_eq_default _ _ (le_of_not_lt hi)]
    exact cinv_default

lemma countriesInv_set {w : WorldState} (h : ∀ c ∈ w.countries, CInv c)
    {i : ℕ} {c' : Country} (hc : CInv c') :
    ∀ c ∈ w.countries.set i c', CInv c := by
  intro c hcm
  rcases List.mem_or_eq_of_mem_set hcm with h1 | h1
  · exact h _ h1
  · rw [h1]; exact hc

lemma stateInv_setCountry {w : WorldState} (h : StateInv w) {i : ℕ} {c' : Country}
    (hc : CInv c') : StateInv (setCountry w i c') :=
  ⟨countriesInv_set h.1 hc, h.2⟩

lemma stateInv_modify {w : WorldState} (h : StateInv w) (i : ℕ) {f : Country → Country}
    (hf : ∀ c, CInv c → CInv (f c)) : StateInv (modifyCountry w i f) :=
  stateInv_setCountry h (hf _ (cinv_countryAt h i))

lemma hap_sub_bounds {h d : ℚ} (h1 : 0 ≤ h) (h2 : h ≤ 100) (hd : 0 ≤ d) :
    0 ≤ max 0 (h - d) ∧ max 0 (h - d) ≤ 100 :=
  ⟨le_max_left 0 _, max_le (by norm_num) (by linarith)⟩

lemma hap_add_bounds {h d : ℚ} (h1 : 0 ≤ h) (h2 : h ≤ 100) (hd : 0 ≤ d) :
    0 ≤ min 100 (h + d) ∧ min 100 (h + d) ≤ 100 :=
  ⟨le_min (by norm_num) (by linarith), min_le_left 100 _⟩

lemma tensionInv_dictSet {l : List (String × ℤ)} (hl : TensionInv l)
    {k : String} {v : ℤ} (hv : 0 ≤ v) (hv2 : v ≤ 100) : TensionInv (dictSet l k v) := by
  intro p hp
  unfold dictSet at hp
  split_ifs at hp with hany
  · obtain ⟨q, hq, rfl⟩ := List.mem_map.1 hp
    split_ifs with hqk
    · exact ⟨hv, hv2⟩
    · exact hl q hq
  · rcases List.mem_append.1 hp with h1 | h1
    · exact hl p h1
    · rw [List.mem_singleton.1 h1]
      exact ⟨hv, hv2⟩

lemma cinv_update_tension {c : Country} (h : CInv c) (pn : String) (ch : ℤ) :
    CInv (update_tension c pn ch) := by
  obtain ⟨h0, h1, h2, h3⟩ := h
  refine ⟨h0, h1, h2, ?_⟩
  apply tensionInv_dictSet h3
  · exact le_min (by norm_num) (le_max_left 0 _)
  · exact min_le_left 100 _

lemma eff_pos (e h : ℚ) : 0 < investEfficiency e h := by
  unfold investEfficiency
  split_ifs <;> norm_num

lemma dm_pos (l : ℚ) : 0 < disasterMultiplier l := by
  unfold disasterMultiplier
  split_ifs <;> norm_num

lemma sound_alarm_mono (e : Ecosystem) : e.alarm_level ≤ (sound_alarm e).alarm_level := by
  simp only [sound_alarm, soundAlarmLoop]
  split_ifs with h1 h2 h3
  · exact Nat.le_of_lt h1.2
  · exact Nat.le_of_lt h2.2
  · exact Nat.le_of_lt h3.2
  · exact Nat.le_refl _

lemma einv_sound_alarm {e : Ecosystem} (h : EInv e) : EInv (sound_alarm e) := by
  obtain ⟨h0, h1, h2⟩ := h
  refine ⟨h0, h1, ?_⟩
  simp only [sound_alarm, soundAlarmLoop]
  split_ifs <;> omega

lemma cinv_pollutionPenalty {c : Country} (h : CInv c) : CInv (pollutionPenalty c) := by
  obtain ⟨h0, h1, h2, h3⟩ := h
  exact ⟨(hap_sub_bounds h0 h1 (by norm_num)).1, (hap_sub_bounds h0 h1 (by norm_num)).2,
    add_nonneg h2 (by norm_num), h3⟩

lemma einv_clamped (e : Ecosystem) (x : ℚ) (a : ℕ) (h : a ≤ 3) :
    EInv { e with ecosystem_health := max 0 (min 100 x), alarm_level := a } :=
  ⟨le_max_left 0 _, max_le (by norm_num) (min_le_left 100 _), h⟩

lemma inv_update_pollution {w : WorldState} (h : StateInv w) :
    StateInv (update_pollution w) := by
  obtain ⟨hc, he⟩ := h
  simp only [update_pollution]
  split_ifs with h0
  · exact ⟨hc, he⟩
  · constructor
    · intro c hcm
      obtain ⟨p, hp, rfl⟩ := List.mem_map.1 hcm
      have hp2 : p.2 ∈ w.countries := by
        have := List.mem_map_of_mem Prod.snd hp
        rwa [List.enum_map_snd] at this
      split_ifs
      · exact cinv_pollutionPenalty (hc _ hp2)
      · exact hc _ hp2
    · exact ⟨le_max_left 0 _, max_le (by norm_num) (min_le_left 100 _), he.2.2⟩

lemma alarm_update_pollution (w : WorldState) :
    (update_pollution w).eco.alarm_level = w.eco.alarm_level := by
  simp only [update_pollution]
  split_ifs <;> rfl

lemma inv_soundAlarmW {w : WorldState} (h : StateInv w) : StateInv (soundAlarmW w) :=
  ⟨h.1, einv_sound_alarm h.2⟩

lemma inv_applyDisease {w : WorldState} (h : StateInv w) : StateInv (applyDisease w) := by
  unfold applyDisease
  refine stateInv_modify h _ (fun c hc => ?_)
  obtain ⟨h0, h1, h2, h3⟩ := hc
  have hm := le_of_lt (dm_pos c.infrastructure_level)
  have hd : (0:ℚ) ≤ 10 * disasterMultiplier c.infrastructure_level :=
    mul_nonneg (by norm_num) hm
  exact ⟨(hap_sub_bounds h0 h1 hd).1, (hap_sub_bounds h0 h1 hd).2,
    add_nonneg h2 (mul_nonneg (by norm_num) hm), h3⟩

lemma inv_applyQuake {w : WorldState} (h : StateInv w) (i : ℕ) : StateInv (applyQuake w i) := by
  unfold applyQuake
  refine stateInv_modify h _ (fun c hc => ?_)
  obtain ⟨h0, h1, h2, h3⟩ := hc
  have hm := le_of_lt (dm_pos c.infrastructure_level)
  have hd : (0:ℚ) ≤ 5 * disasterMultiplier c.infrastructure_level :=
    mul_nonneg (by norm_num) hm
  exact ⟨(hap_sub_bounds h0 h1 hd).1, (hap_sub_bounds h0 h1 hd).2, h2, h3⟩

lemma inv_applyFloodOne {w : WorldState} (h : StateInv w) (i : ℕ) :
    StateInv (applyFloodOne w i) := by
  unfold applyFloodOne
  refine stateInv_modify h _ (fun c hc => ?_)
  obtain ⟨h0, h1, h2, h3⟩ := hc
  have hm := le_of_lt (dm_pos c.infrastructure_level)
  have hd : (0:ℚ) ≤ 5 * disasterMultiplier c.infrastructure_level :=
    mul_nonneg (by norm_num) hm
  exact ⟨(hap_sub_bounds h0 h1 hd).1, (hap_sub_bounds h0 h1 hd).2, h2, h3⟩

lemma inv_floodFold : ∀ (l : List ℕ) {w : WorldState}, StateInv w →
    StateInv (l.foldl applyFloodOne w) := by
  intro l
  induction l with
  | nil => intro w h; exact h
  | cons x xs ih =>
    intro w h
    rw [List.foldl_cons]
    exact ih (inv_applyFloodOne h x)

lemma alarm_applyDisease (w : WorldState) :
    (applyDisease w).eco.alarm_level = w.eco.alarm_level := rfl

lemma alarm_applyQuake (w : WorldState) (i : ℕ) :
    (applyQuake w i).eco.alarm_level = w.eco.alarm_level := rfl

lemma alarm_floodFold : ∀ (l : List ℕ) (w : WorldState),
    ((l.foldl applyFloodOne w)).eco.alarm_level = w.eco.alarm_level := by
  intro l
  induction l with
  | nil => intro w; rfl
  | cons x xs ih =>
    intro w
    rw [List.foldl_cons, ih]
    rfl

lemma inv_trigger_disasters {w : WorldState} (h : StateInv w) (p : DisasterParams) :
    StateInv (trigger_disasters w p) := by
  simp only [trigger_disasters]
  split_ifs <;>
    first
    | exact h
    | exact inv_applyDisease h
    | exact inv_applyQuake h p.quakeIdx
    | exact inv_applyQuake (inv_applyDisease h) p.quakeIdx
    | exact inv_floodFold _ h
    | exact inv_floodFold _ (inv_applyDisease h)
    | exact inv_floodFold _ (inv_applyQuake h p.quakeIdx)
    | exact inv_floodFold _ (inv_applyQuake (inv_applyDisease h) p.quakeIdx)

lemma alarm_trigger_disasters (w : WorldState) (p : DisasterParams) :
    (trigger_disasters w p).eco.alarm_level = w.eco.alarm_level := by
  simp only [trigger_disasters]
  split_ifs <;> first | rfl | (rw [alarm_floodFold]; try rfl)

lemma cinv_mk (n : String) (pop : ℤ) (res : Res → ℤ) (nd : ℚ) (gov : Gov)
    (ideo : ℤ) (mon mil : ℤ) (hap : ℚ) (tech edu : ℤ) (pol prod : ℚ)
    (inv : InvestAction → ℤ) (infra reb : ℚ) (yr : ℕ) (fl : Bool)
    (ten : List (String × ℤ)) (env : Bool) (ag : RLAgent)
    (h0 : 0 ≤ hap) (h1 : hap ≤ 100) (h2 : 0 ≤ reb) (h3 : TensionInv ten) :
    CInv ⟨n, pop, res, nd, gov, ideo, mon, mil, hap, tech, edu, pol, prod, inv,
      infra, reb, yr, fl, ten, env, ag⟩ :=
  ⟨h0, h1, h2, h3⟩

lemma inv_iteW {c : Prop} [Decidable c] {f : WorldState → WorldState} {w : WorldState}
    (h : StateInv w) (hf : StateInv w → StateInv (f w)) :
    StateInv (if c then f w else w) := by
  split_ifs
  · exact hf h
  · exact h

lemma inv_applyPandemic {w : WorldState} (h : StateInv w) : StateInv (applyPandemic w) := by
  unfold applyPandemic bumpRegionalAll
  refine ⟨?_, h.2⟩
  intro c hcm
  obtain ⟨c0, hc0, rfl⟩ := List.mem_map.1 hcm
  obtain ⟨h0, h1, h2, h3⟩ := h.1 c0 hc0
  exact ⟨(hap_sub_bounds h0 h1 (by norm_num)).1, (hap_sub_bounds h0 h1 (by norm_num)).2, h2, h3⟩

lemma inv_applyMeteor {w : WorldState} (h : StateInv w) (loss : ℕ → Res → ℤ) :
    StateInv (applyMeteor w loss) := by
  unfold applyMeteor bumpRegionalAll
  refine ⟨?_, h.2⟩
  intro c hcm
  obtain ⟨p, hp, rfl⟩ := List.mem_map.1 hcm
  have hp2 : p.2 ∈ w.countries := by
    have := List.mem_map_of_mem Prod.snd hp
    rwa [List.enum_map_snd] at this
  obtain ⟨h0, h1, h2, h3⟩ := h.1 p.2 hp2
  exact ⟨(hap_sub_bounds h0 h1 (by norm_num)).1, (hap_sub_bounds h0 h1 (by norm_num)).2, h2, h3⟩

lemma inv_applyCrash {w : WorldState} (h : StateInv w) : StateInv (applyCrash w) := by
  unfold applyCrash bumpRegionalAll
  refine ⟨?_, h.2⟩
  intro c hcm
  obtain ⟨c0, hc0, rfl⟩ := List.mem_map.1 hcm
  obtain ⟨h0, h1, h2, h3⟩ := h.1 c0 hc0
  exact ⟨(hap_sub_bounds h0 h1 (by norm_num)).1, (hap_sub_bounds h0 h1 (by norm_num)).2, h2, h3⟩

lemma inv_applyBlackout {w : WorldState} (h : StateInv w) : StateInv (applyBlackout w) := by
  unfold applyBlackout bumpRegionalAll
  refine ⟨?_, h.2⟩
  intro c hcm
  obtain ⟨c0, hc0, rfl⟩ := List.mem_map.1 hcm
  obtain ⟨h0, h1, h2, h3⟩ := h.1 c0 hc0
  exact ⟨h0, h1, h2, h3⟩

lemma inv_simulate_global_events {w : WorldState} (h : StateInv w) (year : ℕ)
    (p : GlobalEventParams) : StateInv (simulate_global_events w year p) := by
  simp only [simulate_global_events]
  split_ifs <;>
    first
    | exact h
    | (apply inv_trigger_disasters
       apply inv_soundAlarmW
       apply inv_update_pollution
       repeat first
        | exact (⟨h.1, h.2⟩ : StateInv _)
        | apply inv_applyPandemic
        | apply inv_applyMeteor
        | apply inv_applyCrash
        | apply inv_applyBlackout)

lemma alarm_sge_mono (w : WorldState) (year : ℕ) (p : GlobalEventParams) :
    w.eco.alarm_level ≤ (simulate_global_events w year p).eco.alarm_level := by
  simp only [simulate_global_events]
  split_ifs <;>
    first
    | exact le_refl _
    | (rw [alarm_trigger_disasters]
       refine le_trans ?_ (sound_alarm_mono _)
       rw [alarm_update_pollution]
       try exact le_refl _)

lemma cinv_warWinnerAfter {wC : Country} (h : CInv wC) (lC0 : Country) :
    CInv (warWinnerAfter wC lC0) := by
  obtain ⟨h0, h1, h2, h3⟩ := h
  exact ⟨(hap_add_bounds h0 h1 (by norm_num)).1, (hap_add_bounds h0 h1 (by norm_num)).2,
    add_nonneg h2 (by norm_num), h3⟩

lemma cinv_warLoserAfter {lC0 : Country} (h : CInv lC0) :
    CInv (warLoserAfter lC0) := by
  obtain ⟨h0, h1, h2, h3⟩ := h
  exact ⟨(hap_sub_bounds h0 h1 (by norm_num)).1, (hap_sub_bounds h0 h1 (by norm_num)).2,
    add_nonneg h2 (by norm_num), h3⟩

lemma cinv_warTensions_fst {wC lC : Country} (hw : CInv wC) (pdraw : Bool) :
    CInv (warTensions wC lC pdraw).1 := by
  unfold warTensions
  split_ifs <;>
    first
    | exact cinv_update_tension (cinv_update_tension hw _ _) _ _
    | exact cinv_update_tension hw _ _

lemma cinv_warTensions_snd {wC lC : Country} (hl : CInv lC) (pdraw : Bool) :
    CInv (warTensions wC lC pdraw).2 := by
  unfold warTensions
  split_ifs <;>
    first
    | exact cinv_update_tension (cinv_update_tension hl _ _) _ _
    | exact cinv_update_tension hl _ _

lemma einv_warEcoAfter {e : Ecosystem} (h : EInv e) (wname lname : String) :
    EInv (warEcoAfter e wname lname) := by
  obtain ⟨h0, h1, h2⟩ := h
  exact ⟨le_max_left 0 _, max_le (by norm_num) (by linarith), h2⟩

lemma inv_warPairBody {w : WorldState} (h : StateInv w) (pr : ℕ × ℕ)
    (act : WarAction) (pdraw : Bool) : StateInv (warPairBody w pr act pdraw) := by
  cases act with
  | peace => exact stateInv_modify h _ (fun c hc => hc)
  | attack =>
    simp only [warPairBody]
    split_ifs <;>
      first
      | exact stateInv_modify h _ (fun c hc => hc)
      | (refine stateInv_modify ?_ _ (fun c hc => hc)
         exact ⟨(stateInv_setCountry (stateInv_setCountry h
             (cinv_warTensions_fst (cinv_warWinnerAfter (cinv_countryAt h _) _) pdraw))
             (cinv_warTensions_snd (cinv_warLoserAfter (cinv_countryAt h _)) pdraw)).1,
           einv_warEcoAfter h.2 _ _⟩)

lemma alarm_warPairBody (w : WorldState) (pr : ℕ × ℕ) (act : WarAction) (pdraw : Bool) :
    (warPairBody w pr act pdraw).eco.alarm_level = w.eco.alarm_level := by
  cases act with
  | peace => rfl
  | attack =>
    simp only [warPairBody]
    split_ifs <;> rfl

lemma inv_warFold (p : WarParams) :
    ∀ (l : List (ℕ × ℕ)) {w : WorldState}, StateInv w →
      StateInv (l.foldl (fun acc pr => warPairBody acc pr (p.action pr) (p.peaceDraw pr)) w) := by
  intro l
  induction l with
  | nil => intro w h; exact h
  | cons x xs ih =>
    intro w h
    rw [List.foldl_cons]
    exact ih (inv_warPairBody h x (p.action x) (p.peaceDraw x))

lemma alarm_warFold (p : WarParams) :
    ∀ (l : List (ℕ × ℕ)) (w : WorldState),
      (l.foldl (fun acc pr => warPairBody acc pr (p.action pr) (p.peaceDraw pr)) w).eco.alarm_level
        = w.eco.alarm_level := by
  intro l
  induction l with
  | nil => intro w; rfl
  | cons x xs ih =>
    intro w
    rw [List.foldl_cons, ih, alarm_warPairBody]

lemma inv_simulate_war {w : WorldState} (h : StateInv w) (year : ℕ) (p : WarParams) :
    StateInv (simulate_war w year p) := by
  simp only [simulate_war]
  split_ifs
  · exact h
  · exact h
  · exact inv_warFold p _ h

lemma alarm_simulate_war (w : WorldState) (year : ℕ) (p : WarParams) :
    (simulate_war w year p).eco.alarm_level = w.eco.alarm_level := by
  simp only [simulate_war]
  split_ifs
  · rfl
  · rfl
  · exact alarm_warFold p _ w

lemma max0_sub_le {x d : ℚ} (hx : x ≤ 100) (hd : 0 ≤ d) : max 0 (x - d) ≤ 100 :=
  max_le (by norm_num) (by linarith)

lemma inv_turnGrowth {w : WorldState} (h : StateInv w) (i : ℕ) :
    StateInv (turnGrowth w i) :=
  stateInv_modify h _ (fun c hc => hc)

lemma inv_turnConsumption {w : WorldState} (h : StateInv w) (i : ℕ) :
    StateInv (turnConsumption w i) := by
  simp only [turnConsumption]
  obtain ⟨h0, h1, h2, h3⟩ := cinv_countryAt h i
  split_ifs
  · refine ⟨(stateInv_setCountry h ?_).1, h.2⟩
    exact ⟨h0, h1, h2, h3⟩
  · exact h

lemma inv_turnScarcity {w : WorldState} (h : StateInv w) (i : ℕ) :
    StateInv (turnScarcity w i) := by
  refine stateInv_modify h _ (fun c hc => ?_)
  obtain ⟨h0, h1, h2, h3⟩ := hc
  dsimp only
  split_ifs <;> refine ⟨?_, ?_, ?_, h3⟩ <;>
    first
    | exact h0
    | exact h1
    | exact h2
    | exact le_max_left _ _
    | exact max0_sub_le h1 (by norm_num)
    | exact max0_sub_le (max0_sub_le h1 (by norm_num)) (by norm_num)
    | exact add_nonneg h2 (by norm_num)

lemma inv_turnForest {w : WorldState} (h : StateInv w) (i : ℕ) :
    StateInv (turnForest w i) := by
  have hw1 : StateInv (modifyCountry w i
      (fun c => { c with happiness := min 100 (c.happiness + 3) })) := by
    refine stateInv_modify h i (fun c hc => ?_)
    obtain ⟨h0, h1, h2, h3⟩ := hc
    exact ⟨(hap_add_bounds h0 h1 (by norm_num)).1,
      (hap_add_bounds h0 h1 (by norm_num)).2, h2, h3⟩
  have hE : (modifyCountry w i
      (fun c => { c with happiness := min 100 (c.happiness + 3) })).eco = w.eco := rfl
  have hw2 : StateInv (modifyCountry w i (fun c =>
      { c with happiness := max 0 (c.happiness - 3),
               rebellion_risk := c.rebellion_risk + 1/20 })) := by
    refine stateInv_modify h i (fun c hc => ?_)
    obtain ⟨h0, h1, h2, h3⟩ := hc
    exact ⟨(hap_sub_bounds h0 h1 (by norm_num)).1,
      (hap_sub_bounds h0 h1 (by norm_num)).2, add_nonneg h2 (by norm_num), h3⟩
  simp only [turnForest]
  refine stateInv_modify ?_ i (fun c hc => ?_)
  · split_ifs
    · exact ⟨hw1.1, le_min (by norm_num) (by rw [hE]; linarith [h.2.1]),
        min_le_left _ _, h.2.2.2⟩
    · exact hw2
    · exact h
  · obtain ⟨h0, h1, h2, h3⟩ := hc
    split_ifs <;> exact ⟨h0, h1, h2, h3⟩

lemma inv_turnProdPollution {w : WorldState} (h : StateInv w) (i : ℕ) :
    StateInv (turnProdPollution w i) := by
  simp only [turnProdPollution]
  obtain ⟨h0, h1, h2, h3⟩ := cinv_countryAt h i
  split_ifs
  · refine ⟨(stateInv_setCountry h ?_).1, h.2⟩
    exact ⟨h0, h1, h2, h3⟩
  · exact h

lemma inv_turnEcoFeedback {w : WorldState} (h : StateInv w) (i : ℕ) :
    StateInv (turnEcoFeedback w i) := by
  simp only [turnEcoFeedback]
  split_ifs
  · refine stateInv_modify h _ (fun c hc => ?_)
    obtain ⟨h0, h1, h2, h3⟩ := hc
    exact ⟨(hap_sub_bounds h0 h1 (by norm_num)).1,
      (hap_sub_bounds h0 h1 (by norm_num)).2, add_nonneg h2 (by norm_num), h3⟩
  · refine stateInv_modify h _ (fun c hc => ?_)
    obtain ⟨h0, h1, h2, h3⟩ := hc
    refine ⟨?_, ?_, h2, h3⟩ <;> split_ifs <;>
      first
      | exact le_min (by norm_num) (by linarith)
      | exact min_le_left _ _
  · exact h

lemma inv_turnSports {w : WorldState} (h : StateInv w) (i : ℕ) (d : Bool) :
    StateInv (turnSports w i d) := by
  refine stateInv_modify h _ (fun c hc => ?_)
  obtain ⟨h0, h1, h2, h3⟩ := hc
  split_ifs
  · exact ⟨(hap_add_bounds h0 h1 (by norm_num)).1,
      (hap_add_bounds h0 h1 (by norm_num)).2, le_max_left _ _, h3⟩
  · exact ⟨h0, h1, h2, h3⟩

lemma inv_turnEduMigration {w : WorldState} (h : StateInv w) (i : ℕ) (d : Bool) :
    StateInv (turnEduMigration w i d) := by
  refine stateInv_modify h _ (fun c hc => ?_)
  obtain ⟨h0, h1, h2, h3⟩ := hc
  split_ifs
  · exact ⟨(hap_sub_bounds h0 h1 (by norm_num)).1,
      (hap_sub_bounds h0 h1 (by norm_num)).2, h2, h3⟩
  · exact ⟨h0, h1, h2, h3⟩

lemma inv_turnTechMigration {w : WorldState} (h : StateInv w) (i : ℕ) (d : Bool)
    (fr : ℚ) : StateInv (turnTechMigration w i d fr) := by
  refine stateInv_modify h _ (fun c hc => ?_)
  obtain ⟨h0, h1, h2, h3⟩ := hc
  split_ifs
  · exact ⟨(hap_sub_bounds h0 h1 (by norm_num)).1,
      (hap_sub_bounds h0 h1 (by norm_num)).2, h2, h3⟩
  · exact ⟨h0, h1, h2, h3⟩

lemma inv_collect_taxes {w : WorldState} (h : StateInv w) (i : ℕ) :
    StateInv (collect_taxes w i) := by
  simp only [collect_taxes]
  refine stateInv_modify h _ (fun c hc => ?_)
  obtain ⟨h0, h1, h2, h3⟩ := hc
  refine ⟨le_max_left _ _, max0_sub_le h1 ?_, h2, h3⟩
  split_ifs <;> norm_num

lemma inv_turnPolitical {w : WorldState} (h : StateInv w) (i : ℕ) :
    StateInv (turnPolitical w i) := by
  refine stateInv_modify h _ (fun c hc => ?_)
  obtain ⟨h0, h1, h2, h3⟩ := hc
  split_ifs <;>
    first
    | exact ⟨h0, h1, h2, h3⟩
    | exact ⟨by norm_num, by norm_num, h2, h3⟩

lemma inv_rebellion {w : WorldState} (h : StateInv w) (i : ℕ) {p : RebellionParams}
    (h30 : 30 ≤ p.failHappiness) (h40 : p.failHappiness ≤ 40) :
    StateInv (rebellion w i p) := by
  refine stateInv_modify h _ (fun c hc => ?_)
  obtain ⟨h0, h1, h2, h3⟩ := hc
  have hq30 : (30 : ℚ) ≤ (p.failHappiness : ℚ) := by exact_mod_cast h30
  have hq40 : (p.failHappiness : ℚ) ≤ 40 := by exact_mod_cast h40
  split_ifs
  · exact ⟨by norm_num, by norm_num, h2, h3⟩
  · exact ⟨by linarith, by linarith, h2, h3⟩

lemma inv_turnRebellionCheck {w : WorldState} (h : StateInv w) (i : ℕ)
    {p : RebellionParams} (h30 : 30 ≤ p.failHappiness) (h40 : p.failHappiness ≤ 40) :
    StateInv (turnRebellionCheck w i p) := by
  simp only [turnRebellionCheck]
  split_ifs
  · exact inv_rebellion h i h30 h40
  · exact h

lemma inv_turnYearEnd {w : WorldState} (h : StateInv w) (i : ℕ) :
    StateInv (turnYearEnd w i) := by
  refine stateInv_modify h _ (fun c hc => ?_)
  obtain ⟨h0, h1, h2, h3⟩ := hc
  split_ifs <;>
    first
    | exact ⟨h0, h1, h2, h3⟩
    | exact ⟨by norm_num, by norm_num, h2, h3⟩

lemma inv_trade_resources {w : WorldState} (h : StateInv w) (i j : ℕ) (p : TradeParams) :
    StateInv (trade_resources w i j p) := by
  obtain ⟨ha0, ha1, ha2, ha3⟩ := cinv_countryAt h i
  obtain ⟨hb0, hb1, hb2, hb3⟩ := cinv_countryAt h j
  simp only [trade_resources]
  split_ifs <;>
    first
    | exact h
    | exact stateInv_setCountry (stateInv_setCountry h
        (cinv_update_tension ⟨ha0, ha1, ha2, ha3⟩ _ _))
        (cinv_update_tension ⟨hb0, hb1, hb2, hb3⟩ _ _)
    | (refine ⟨?_, h.2⟩
       intro c hcm
       rcases List.mem_or_eq_of_mem_set hcm with hcm2 | rfl
       · rcases List.mem_or_eq_of_mem_set hcm2 with hcm3 | rfl
         · exact h.1 _ hcm3
         · exact cinv_update_tension ⟨ha0, ha1, ha2, ha3⟩ _ _
       · exact cinv_update_tension ⟨hb0, hb1, hb2, hb3⟩ _ _)

lemma inv_agreeIdeologyStep {w : WorldState} (h : StateInv w) (i j : ℕ) :
    StateInv (agreeIdeologyStep i w j) := by
  simp only [agreeIdeologyStep]
  split_ifs
  · refine stateInv_modify ?_ j (fun c hc => hc)
    refine stateInv_modify ?_ i (fun c hc => hc)
    refine stateInv_modify ?_ j (fun c hc => cinv_update_tension hc _ _)
    exact stateInv_modify h i (fun c hc => cinv_update_tension hc _ _)
  · exact h

lemma alarm_agreeIdeologyStep (w : WorldState) (i j : ℕ) :
    (agreeIdeologyStep i w j).eco.alarm_level = w.eco.alarm_level := by
  simp only [agreeIdeologyStep]
  split_ifs <;> rfl

lemma inv_agreeFold (i : ℕ) : ∀ (l : List ℕ) {w : WorldState}, StateInv w →
    StateInv (l.foldl (agreeIdeologyStep i) w) := by
  intro l
  induction l with
  | nil => intro w h; exact h
  | cons x xs ih =>
    intro w h
    rw [List.foldl_cons]
    exact ih (inv_agreeIdeologyStep h i x)

lemma alarm_agreeFold (i : ℕ) : ∀ (l : List ℕ) (w : WorldState),
    (l.foldl (agreeIdeologyStep i) w).eco.alarm_level = w.eco.alarm_level := by
  intro l
  induction l with
  | nil => intro w; rfl
  | cons x xs ih =>
    intro w
    rw [List.foldl_cons, ih, alarm_agreeIdeologyStep]

lemma inv_join_environment_agreement {w : WorldState} (h : StateInv w) (i : ℕ)
    (act : AgreeAction) : StateInv (join_environment_agreement w i act) := by
  cases act with
  | join =>
    simp only [join_environment_agreement]
    split_ifs
    · exact h
    · refine stateInv_modify ?_ i (fun c hc => hc)
      refine inv_agreeFold i _ ?_
      have h1 : StateInv (modifyCountry w i (fun c =>
          { c with
            environment_agreement := true,
            pollution := max 0 (c.pollution - 10),
            money := pyInt ((c.money : ℚ) * (95/100)) })) :=
        stateInv_modify h i (fun c hc => hc)
      exact ⟨h1.1, le_min (by norm_num) (by linarith [h1.2.1]), min_le_left _ _, h1.2.2.2⟩
  | refuse =>
    simp only [join_environment_agreement]
    split_ifs
    · exact h
    · refine stateInv_modify ?_ i (fun c hc => hc)
      have h1 : StateInv (modifyCountry w i (fun c =>
          { c with
            pollution := c.pollution + 5,
            happiness := max 0 (c.happiness - 2),
            rebellion_risk := c.rebellion_risk + 1/50 })) := by
        refine stateInv_modify h i (fun c hc => ?_)
        obtain ⟨h0, h1, h2, h3⟩ := hc
        exact ⟨(hap_sub_bounds h0 h1 (by norm_num)).1,
          (hap_sub_bounds h0 h1 (by norm_num)).2, add_nonneg h2 (by norm_num), h3⟩
      exact ⟨h1.1, h.2⟩

lemma cinv_investEconomyEffect {c : Country} (hc : CInv c) (eff : ℚ) (he : 0 ≤ eff) :
    CInv (investEconomyEffect eff c) := by
  obtain ⟨h0, h1, h2, h3⟩ := hc
  simp only [investEconomyEffect]
  split_ifs <;>
    first
    | exact ⟨h0, h1, h2, h3⟩
    | exact ⟨le_max_left _ _, max0_sub_le h1 (by positivity), h2, h3⟩

lemma cinv_investEnvironmentEffect {c : Country} (hc : CInv c) (eff : ℚ) (he : 0 ≤ eff) :
    CInv (investEnvironmentEffect eff c) := by
  obtain ⟨h0, h1, h2, h3⟩ := hc
  exact ⟨le_min (by positivity) (by linarith), min_le_left _ _, h2, h3⟩

lemma cinv_investInfraEffect {c : Country} (hc : CInv c) (eff : ℚ) (he : 0 ≤ eff) :
    CInv (investInfraEffect eff c) := by
  obtain ⟨h0, h1, h2, h3⟩ := hc
  exact ⟨le_min (by positivity) (by linarith), min_le_left _ _, le_max_left _ _, h3⟩

lemma inv_make_investment_decision {w : WorldState} (h : StateInv w) (i : ℕ)
    (act : InvestAction) : StateInv (make_investment_decision w i act) := by
  cases act with
  | economy =>
    simp only [make_investment_decision]
    split_ifs <;>
      first
      | exact h
      | (refine stateInv_modify ?_ i (fun c hc => hc)
         have hw0 : StateInv (modifyCountry w i
             (investDeduct (pyInt ((countryAt w i).money * (1/20))) InvestAction.economy)) :=
           stateInv_modify h i (fun c hc => hc)
         exact ⟨(stateInv_setCountry hw0 (cinv_investEconomyEffect (cinv_countryAt hw0 i) _
           (le_of_lt (eff_pos _ _)))).1, h.2⟩)
  | environment =>
    simp only [make_investment_decision]
    split_ifs <;>
      first
      | exact h
      | (refine stateInv_modify ?_ i (fun c hc => hc)
         have hw0 : StateInv (modifyCountry w i
             (investDeduct (pyInt ((countryAt w i).money * (1/20))) InvestAction.environment)) :=
           stateInv_modify h i (fun c hc => hc)
         refine ⟨(stateInv_setCountry hw0 (cinv_investEnvironmentEffect (cinv_countryAt hw0 i) _
           (le_of_lt (eff_pos _ _)))).1, le_min (by norm_num) ?_, min_le_left _ _, hw0.2.2.2⟩
         exact add_nonneg hw0.2.1 (mul_nonneg (by norm_num) (le_of_lt (eff_pos _ _))))
  | infrastructure =>
    simp only [make_investment_decision]
    split_ifs <;>
      first
      | exact h
      | (refine stateInv_modify ?_ i (fun c hc => hc)
         have hw0 : StateInv (modifyCountry w i
             (investDeduct (pyInt ((countryAt w i).money * (1/20))) InvestAction.infrastructure)) :=
           stateInv_modify h i (fun c hc => hc)
         exact stateInv_modify hw0 i
           (fun c hc => cinv_investInfraEffect hc _ (le_of_lt (eff_pos _ _))))

lemma alarm_turnGrowth (w : WorldState) (i : ℕ) :
    (turnGrowth w i).eco.alarm_level = w.eco.alarm_level := rfl

lemma alarm_turnConsumption (w : WorldState) (i : ℕ) :
    (turnConsumption w i).eco.alarm_level = w.eco.alarm_level := by
  simp only [turnConsumption]
  split_ifs <;> rfl

lemma alarm_turnScarcity (w : WorldState) (i : ℕ) :
    (turnScarcity w i).eco.alarm_level = w.eco.alarm_level := rfl

lemma alarm_turnForest (w : WorldState) (i : ℕ) :
    (turnForest w i).eco.alarm_level = w.eco.alarm_level := by
  simp only [turnForest]
  split_ifs <;> rfl

lemma alarm_turnProdPollution (w : WorldState) (i : ℕ) :
    (turnProdPollution w i).eco.alarm_level = w.eco.alarm_level := by
  simp only [turnProdPollution]
  split_ifs <;> rfl

lemma alarm_turnEcoFeedback (w : WorldState) (i : ℕ) :
    (turnEcoFeedback w i).eco.alarm_level = w.eco.alarm_level := by
  simp only [turnEcoFeedback]
  split_ifs <;> rfl

lemma alarm_turnSports (w : WorldState) (i : ℕ) (d : Bool) :
    (turnSports w i d).eco.alarm_level = w.eco.alarm_level := rfl

lemma alarm_turnEduMigration (w : WorldState) (i : ℕ) (d : Bool) :
    (turnEduMigration w i d).eco.alarm_level = w.eco.alarm_level := rfl

lemma alarm_turnTechMigration (w : WorldState) (i : ℕ) (d : Bool) (fr : ℚ) :
    (turnTechMigration w i d fr).eco.alarm_level = w.eco.alarm_level := rfl

lemma alarm_collect_taxes (w : WorldState) (i : ℕ) :
    (collect_taxes w i).eco.alarm_level = w.eco.alarm_level := rfl

lemma alarm_trade_resources (w : WorldState) (i j : ℕ) (p : TradeParams) :
    (trade_resources w i j p).eco.alarm_level = w.eco.alarm_level := by
  simp only [trade_resources]
  split_ifs <;> rfl

lemma alarm_join_environment_agreement (w : WorldState) (i : ℕ) (act : AgreeAction) :
    (join_environment_agreement w i act).eco.alarm_level = w.eco.alarm_level := by
  cases act with
  | join =>
    simp only [join_environment_agreement]
    split_ifs
    · rfl
    · have hma : ∀ (X : WorldState) (f : Country → Country),
          (modifyCountry X i f).eco.alarm_level = X.eco.alarm_level := fun _ _ => rfl
      rw [hma, alarm_agreeFold]
      try rfl
  | refuse =>
    simp only [join_environment_agreement]
    split_ifs <;> rfl

lemma alarm_make_investment_decision (w : WorldState) (i : ℕ) (act : InvestAction) :
    (make_investment_decision w i act).eco.alarm_level = w.eco.alarm_level := by
  cases act <;>
    (simp only [make_investment_decision]
     split_ifs <;> rfl)

lemma alarm_turnPolitical (w : WorldState) (i : ℕ) :
    (turnPolitical w i).eco.alarm_level = w.eco.alarm_level := rfl

lemma alarm_turnRebellionCheck (w : WorldState) (i : ℕ) (p : RebellionParams) :
    (turnRebellionCheck w i p).eco.alarm_level = w.eco.alarm_level := by
  simp only [turnRebellionCheck]
  split_ifs <;> rfl

lemma alarm_turnYearEnd (w : WorldState) (i : ℕ) :
    (turnYearEnd w i).eco.alarm_level = w.eco.alarm_level := rfl

lemma step_invariants {w w' : WorldState} (hs : Step w w') (h : StateInv w) :
    StateInv w' ∧ w.eco.alarm_level ≤ w'.eco.alarm_level := by
  cases hs with
  | pollution => exact ⟨inv_update_pollution h, le_of_eq (alarm_update_pollution w).symm⟩
  | alarm => exact ⟨inv_soundAlarmW h, sound_alarm_mono w.eco⟩
  | disasters p => exact ⟨inv_trigger_disasters h p, le_of_eq (alarm_trigger_disasters w p).symm⟩
  | events year p => exact ⟨inv_simulate_global_events h year p, alarm_sge_mono w year p⟩
  | war year p => exact ⟨inv_simulate_war h year p, le_of_eq (alarm_simulate_war w year p).symm⟩
  | growth i => exact ⟨inv_turnGrowth h i, le_of_eq (alarm_turnGrowth w i).symm⟩
  | consumption i => exact ⟨inv_turnConsumption h i, le_of_eq (alarm_turnConsumption w i).symm⟩
  | scarcity i => exact ⟨inv_turnScarcity h i, le_of_eq (alarm_turnScarcity w i).symm⟩
  | forest i => exact ⟨inv_turnForest h i, le_of_eq (alarm_turnForest w i).symm⟩
  | prodPollution i => exact ⟨inv_turnProdPollution h i, le_of_eq (alarm_turnProdPollution w i).symm⟩
  | ecoFeedback i => exact ⟨inv_turnEcoFeedback h i, le_of_eq (alarm_turnEcoFeedback w i).symm⟩
  | sports i d => exact ⟨inv_turnSports h i d, le_of_eq (alarm_turnSports w i d).symm⟩
  | eduMigration i d => exact ⟨inv_turnEduMigration h i d, le_of_eq (alarm_turnEduMigration w i d).symm⟩
  | techMigration i d fr =>
    exact ⟨inv_turnTechMigration h i d fr, le_of_eq (alarm_turnTechMigration w i d fr).symm⟩
  | taxes i => exact ⟨inv_collect_taxes h i, le_of_eq (alarm_collect_taxes w i).symm⟩
  | trade i j p => exact ⟨inv_trade_resources h i j p, le_of_eq (alarm_trade_resources w i j p).symm⟩
  | agreement i a =>
    exact ⟨inv_join_environment_agreement h i a,
      le_of_eq (alarm_join_environment_agreement w i a).symm⟩
  | investment i a =>
    exact ⟨inv_make_investment_decision h i a,
      le_of_eq (alarm_make_investment_decision w i a).symm⟩
  | political i => exact ⟨inv_turnPolitical h i, le_of_eq (alarm_turnPolitical w i).symm⟩
  | rebellionCheck i p h30 h40 =>
    exact ⟨inv_turnRebellionCheck h i h30 h40, le_of_eq (alarm_turnRebellionCheck w i p).symm⟩
  | yearEnd i => exact ⟨inv_turnYearEnd h i, le_of_eq (alarm_turnYearEnd w i).symm⟩

lemma stateInv_of_init {w : WorldState} (h : InitState w) : StateInv w := by
  obtain ⟨hc, he, ha⟩ := h
  constructor
  · intro c hcm
    obtain ⟨h70, hreb, hp1, hp2, ht⟩ := hc c hcm
    refine ⟨?_, ?_, ?_, ?_⟩
    · rw [h70]; norm_num
    · rw [h70]; norm_num
    · rw [hreb]
    · intro p hp
      obtain ⟨l1, l2⟩ := ht p hp
      exact ⟨by linarith, by linarith⟩
  · exact ⟨by rw [he]; norm_num, by rw [he]; norm_num, by rw [ha]; norm_num⟩

/-- C2: every state reachable from an episode-start state through the
simulation's operations keeps `0 <= happiness <= 100`, nonnegative
pollution, production and resources, tensions in `[0, 100]`,
`0 <= ecosystem_health <= 100` and `0 <= alarm_level <= 3`; moreover no
single operation ever decreases the alarm level. -/
theorem reachable_state_invariants (s : WorldState) (hs : Reachable s) :
    StateInv s ∧ ∀ t, Step s t → s.eco.alarm_level ≤ t.eco.alarm_level := by
  have hInv : StateInv s := by
    induction hs with
    | init w h => exact stateInv_of_init h
    | step w w' hw hstep ih => exact (step_invariants hstep ih).1
  exact ⟨hInv, fun t ht => (step_invariants ht hInv).2⟩

theorem reachable_state_invariants_witness :
    InitState wInit ∧
    (StateInv wInit ∧ ∀ t, Step wInit t → wInit.eco.alarm_level ≤ t.eco.alarm_level) :=
  ⟨by unfold InitState; decide,
    reachable_state_invariants wInit (Reachable.init wInit (by unfold InitState; decide))⟩


end WorldSim
